import Mathlib

/-!
# Verification of the vose-movie-scrapers ingestion reconciliation engine

Shallow embedding of the backend service layer
(`api/services/scraper_service.py`, `api/utils/scraper_validator.py`,
`api/schemas/scraper.py`) of the `vose-movie-scrapers` repository.

Modelling conventions:
* SQLAlchemy session state is passed explicitly as a `DB` value holding the
  three tables the service touches (`movies`, `cinemas`, `showtimes`) as lists
  in insertion order.  Queries (`.filter(...).first()`) become `List.find?`,
  ORM attribute mutation of the found row becomes `updateFirst`.
* The session is created with `autoflush=False` and `add_showtime` never
  flushes, so within one batch the real existence query sees only
  flushed/committed showtime rows, never rows still pending from earlier in
  the batch.  Two batch-phase models are therefore given: the success-path
  model (`addShowtime`/`processScrapedData`), whose queries see every row
  added so far - it coincides with the program exactly on batches whose
  showtime lists repeat no composite key, the only batches on which the
  single-commit path succeeds - and the flush-aware model
  (`addShowtimeF`/`processScrapedDataF`), with pending rows, explicit flush
  points, the `IntegrityError` commit outcome and the replay fallback.
* Calendar dates are encoded as `Nat` codes `y*10000 + m*100 + d` (the encoding
  is strictly monotone in the calendar order for valid dates, so `<` on codes
  is `<` on dates); times of day as minutes `h*60 + m`.  `date.today()` and
  `datetime.now()` become explicit `today`/`now : Nat` parameters (ingestion
  clock).
* Python truthiness of `Optional[str]` values (`if link`, `if not movie.link`,
  `if not all([title, ...])`) is `otruthy`: `None` and `""` are falsy.
* Storage operations performed against the showtimes table are additionally
  recorded as an explicit trace (`StorageOp`), so that statements about
  "write attempts" are expressible.  The trace is write-only instrumentation:
  no operation reads it.
* Surrogate `id` columns of `Showtime` are omitted (never read by the service
  logic); `Movie`/`Cinema` ids are drawn from explicit counters standing for
  the autoincrement key assigned at `flush()`.
* Of the enrichment columns of `Movie` (poster, rating, ...), which the
  service never touches, one representative (`poster_url`) is kept so the
  frame properties about "no other field" have content.
-/

/-- Python truthiness of an `Optional[str]`: `None` and `""` are falsy. -/
def otruthy : Option String → Bool
  | none => false
  | some s => !(s == "")

/-- Update the first element of a list satisfying `p` by `f` (the effect of
mutating the single ORM object returned by `.filter(...).first()`). -/
def updateFirst {α : Type} (p : α → Bool) (f : α → α) : List α → List α
  | [] => []
  | x :: xs => if p x then f x :: xs else x :: updateFirst p f xs

/-- A movie row (`api/models/movie.py`).  `poster_url` stands for the
enrichment columns, which the scraper service never writes. -/
structure Movie where
  id : Nat
  title : String
  link : Option String
  poster_url : Option String
  deriving Repr, DecidableEq

/-- A cinema row (`api/models/cinema.py`). -/
structure Cinema where
  id : Nat
  name : String
  location : String
  island : String
  address : Option String
  website : Option String
  deriving Repr, DecidableEq

/-- A showtime row (`api/models/showtime.py`).  The composite uniqueness key
is (`movie_id`, `cinema_id`, `showtime_date`, `showtime_time`). -/
structure Showtime where
  movie_id : Nat
  cinema_id : Nat
  showtime_date : Nat
  showtime_time : Nat
  version : String
  scraped_at : Nat
  is_active : Bool
  deriving Repr, DecidableEq

/-- The slice of database state the scraper service reads and writes. -/
structure DB where
  movies : List Movie
  cinemas : List Cinema
  showtimes : List Showtime
  nextMovieId : Nat
  nextCinemaId : Nat
  deriving Repr, DecidableEq

/-- Trace entry for one storage operation against the showtimes table. -/
inductive StorageOp where
  | query (movie_id cinema_id d t : Nat)
  | insert (movie_id cinema_id d t : Nat)
  | update (movie_id cinema_id d t : Nat)
  deriving Repr, DecidableEq

/-- Is the op a write (INSERT or UPDATE) on the given composite key? -/
def StorageOp.isWrite (mid cid d t : Nat) : StorageOp → Bool
  | .query _ _ _ _ => false
  | .insert m c d' t' => m == mid && c == cid && d' == d && t' == t
  | .update m c d' t' => m == mid && c == cid && d' == d && t' == t

/-- Is the op an INSERT on the given composite key? -/
def StorageOp.isInsert (mid cid d t : Nat) : StorageOp → Bool
  | .insert m c d' t' => m == mid && c == cid && d' == d && t' == t
  | _ => false

/-- Model of `ScraperService.get_or_create_movie`: exact-title lookup; create when
absent; backfill the link when the movie exists, the incoming link is truthy
and the stored link is falsy; otherwise return the row untouched. -/
def getOrCreateMovie (db : DB) (title : String) (link : Option String) :
    Movie × DB :=
  match db.movies.find? (fun m => m.title == title) with
  | none =>
      let m : Movie := { id := db.nextMovieId, title := title, link := link,
                         poster_url := none }
      (m, { db with movies := db.movies ++ [m],
                    nextMovieId := db.nextMovieId + 1 })
  | some m =>
      if otruthy link && !otruthy m.link then
        let movies' := updateFirst (fun x => x.title == title)
          (fun x => { x with link := link }) db.movies
        ({ m with link := link }, { db with movies := movies' })
      else
        (m, db)

/-- Model of `ScraperService.get_or_create_cinema`: lookup by (name, location); create
when absent (the service call sites never pass address/website). -/
def getOrCreateCinema (db : DB) (name location island : String) :
    Cinema × DB :=
  match db.cinemas.find? (fun c => c.name == name && c.location == location) with
  | none =>
      let c : Cinema := { id := db.nextCinemaId, name := name,
                          location := location, island := island,
                          address := none, website := none }
      (c, { db with cinemas := db.cinemas ++ [c],
                    nextCinemaId := db.nextCinemaId + 1 })
  | some c => (c, db)

/-- The filter of the `add_showtime` existence query: row matches the
composite key (`movie_id`, `cinema_id`, `showtime_date`, `showtime_time`). -/
def keyMatch (mid cid d t : Nat) (s : Showtime) : Bool :=
  s.movie_id == mid && s.cinema_id == cid &&
    s.showtime_date == d && s.showtime_time == t

/-- Model of `ScraperService.add_showtime`: query the row by composite key; when found,
set its `scraped_at` to now and force `is_active = True` (heartbeat); when
absent, add a new active row.  Returns the row it acted on, the new state,
and the trace of storage operations it performed.  The existence query here
sees every row of the modelled table, including rows added earlier in the
same batch; exact for batches repeating no composite key (the flush-aware
`addShowtimeF` below restricts the query to flushed rows). -/
def addShowtime (now : Nat) (db : DB) (mid cid d t : Nat) (version : String) :
    Showtime × DB × List StorageOp :=
  match db.showtimes.find? (keyMatch mid cid d t) with
  | some existing =>
      let rows' := updateFirst (keyMatch mid cid d t)
        (fun s => { s with scraped_at := now, is_active := true })
        db.showtimes
      ({ existing with scraped_at := now, is_active := true },
       { db with showtimes := rows' },
       [.query mid cid d t, .update mid cid d t])
  | none =>
      let s : Showtime := { movie_id := mid, cinema_id := cid,
                            showtime_date := d, showtime_time := t,
                            version := version, scraped_at := now,
                            is_active := true }
      (s, { db with showtimes := db.showtimes ++ [s] },
       [.query mid cid d t, .insert mid cid d t])

/-- Model of `ScraperService.mark_old_showtimes_inactive`: bulk-update every row with
`showtime_date < today` and `is_active = True` to `is_active = False`;
return the number of rows the update matched. -/
def markOldShowtimesInactive (today : Nat) (db : DB) : Nat × DB :=
  let n := db.showtimes.countP
    (fun s => decide (s.showtime_date < today) && s.is_active)
  let rows' := db.showtimes.map
    (fun s => if decide (s.showtime_date < today) && s.is_active then
        { s with is_active := false }
      else s)
  (n, { db with showtimes := rows' })

/-- Gregorian leap-year rule (as validated by `datetime.strptime`). -/
def isLeapYear (y : Nat) : Bool :=
  (y % 4 == 0 && !(y % 100 == 0)) || y % 400 == 0

/-- Days in a month, for calendar validation of parsed dates. -/
def daysInMonth (y m : Nat) : Nat :=
  if m == 2 then (if isLeapYear y then 29 else 28)
  else if m == 4 || m == 6 || m == 9 || m == 11 then 30
  else 31

/-- Split a character list at every occurrence of the separator, keeping
empty fields (the behaviour of Python `str.split(sep)` with an explicit
separator). -/
def splitOnChar (c : Char) : List Char → List (List Char)
  | [] => [[]]
  | a :: rest =>
      match splitOnChar c rest with
      | [] => [[a]]
      | g :: gs => if a == c then [] :: g :: gs else (a :: g) :: gs

/-- Decimal value of a non-empty all-digit character list; `none`
otherwise. -/
def digitsToNatAux (acc : Nat) : List Char → Nat
  | [] => acc
  | c :: cs => digitsToNatAux (acc * 10 + (c.toNat - 48)) cs

/-- Decimal value of a non-empty all-digit character list; `none`
otherwise (the digit-string fragment of Python `int(s)`). -/
def digitsToNat? (cs : List Char) : Option Nat :=
  if cs ≠ [] ∧ cs.all Char.isDigit then some (digitsToNatAux 0 cs) else none

/-- Python `int(s)` for a non-negative field: surrounding whitespace is
tolerated, then the digits are read (signs are not modelled; a negative
field fails here where Python would instead fail the later
`datetime.time` range check, with the same observable outcome). -/
def pyIntNat? (cs : List Char) : Option Nat :=
  digitsToNat?
    (((cs.dropWhile Char.isWhitespace).reverse.dropWhile
        Char.isWhitespace).reverse)

/-- Model of `datetime.strptime(s, "%Y-%m-%d").date()`: a 4-digit year, a
1-2 digit month and day forming a valid calendar date; the result is the
date code `y*10000 + m*100 + d`.  Returns `none` where Python raises
`ValueError`. -/
def parseDate (s : String) : Option Nat :=
  match splitOnChar (Char.ofNat 45) s.toList with
  | [y, m, d] =>
    match digitsToNat? y, digitsToNat? m, digitsToNat? d with
    | some yn, some mn, some dn =>
        if y.length = 4 ∧ 1 ≤ mn ∧ mn ≤ 12 ∧ 1 ≤ dn ∧ dn ≤ daysInMonth yn mn
        then some (yn * 10000 + mn * 100 + dn)
        else none
    | _, _, _ => none
  | _ => none

/-- Model of `hour, minute = map(int, time_str.split(":"))` followed by
`datetime.time(hour, minute)`: exactly two `:`-separated integer fields
(`int` tolerates surrounding whitespace), hour 0-23, minute 0-59; the result
is minutes since midnight.  Returns `none` where Python raises
`ValueError`. -/
def parseTimeHM (s : String) : Option Nat :=
  match splitOnChar (Char.ofNat 58) s.toList with
  | [h, m] =>
    match pyIntNat? h, pyIntNat? m with
    | some hn, some mn =>
        if hn ≤ 23 ∧ mn ≤ 59 then some (hn * 60 + mn) else none
    | _, _ => none
  | _ => none

/-- One element of an ingestion record's `showtimes` list: either the
canonical dict shape (whose `date`/`time` lookups may be missing) or the
legacy bare time string. -/
inductive ShowtimeItem where
  | dict (date : Option String) (time : Option String)
  | str (time : String)
  deriving Repr, DecidableEq

/-- One raw ingestion record as consumed by `process_scraped_data`
(`item.get(...)` lookups yield `Option`; `showtimes` and `version` have
defaults in the code). -/
structure Item where
  title : Option String
  cinema : Option String
  location : Option String
  island : Option String
  version : Option String
  showtimes : List ShowtimeItem
  link : Option String
  deriving Repr, DecidableEq

/-- Outcome of the per-entry parsing block in `process_scraped_data`:
`skip` (incomplete dict entry, `continue` without an error), `err`
(a `ValueError` caught by the inner handler), or a resolved
(date, time) pair. -/
inductive EntryResult where
  | skip
  | err
  | ok (d t : Nat)
  deriving Repr, DecidableEq

/-- The showtime-entry parsing block of `process_scraped_data` (lines
159-181): dict entries use the supplied date, bare strings default the date
to `today` (`date.today()`), and in both shapes the time string is parsed
with `split(":")`. -/
def parseEntry (today : Nat) : ShowtimeItem → EntryResult
  | .dict dateStr timeStr =>
      if !otruthy dateStr || !otruthy timeStr then .skip
      else
        match parseDate (dateStr.getD "") with
        | none => .err
        | some d =>
          match parseTimeHM (timeStr.getD "") with
          | none => .err
          | some t => .ok d t
  | .str timeStr =>
      match parseTimeHM timeStr with
      | none => .err
      | some t => .ok today t

/-- The `stats` dictionary built by `process_scraped_data`. -/
structure Stats where
  movies_processed : Nat
  cinemas_processed : Nat
  showtimes_added : Nat
  errors : List String
  deriving Repr, DecidableEq

/-- Initial stats of a run. -/
def initStats : Stats := { movies_processed := 0, cinemas_processed := 0,
                           showtimes_added := 0, errors := [] }

/-- Full state threaded through one `process_scraped_data` run: the session
(`db`), the `stats` dict, the `movies_seen`/`cinemas_seen` id sets, and the
instrumentation trace of showtimes-table storage operations. -/
structure PState where
  db : DB
  stats : Stats
  movies_seen : List Nat
  cinemas_seen : List Nat
  ops : List StorageOp
  deriving Repr, DecidableEq

/-- The completeness guard `if not all([title, cinema_name, location,
island]): continue`. -/
def itemComplete (it : Item) : Bool :=
  otruthy it.title && otruthy it.cinema && otruthy it.location &&
    otruthy it.island

/-- Body of the inner showtime loop of `process_scraped_data`: parse the
entry, then `add_showtime`; `add_showtime` always returns a (truthy) row, so
`showtimes_added` counts heartbeats as well as inserts. -/
def processEntry (today now mid cid : Nat) (version : String)
    (st : PState) (e : ShowtimeItem) : PState :=
  match parseEntry today e with
  | .skip => st
  | .err =>
      let stats' := { st.stats with errors := st.stats.errors ++ ["Time parse error"] }
      { st with stats := stats' }
  | .ok d t =>
      let (_, db', newOps) := addShowtime now st.db mid cid d t version
      let stats' := { st.stats with showtimes_added := st.stats.showtimes_added + 1 }
      { st with db := db', stats := stats', ops := st.ops ++ newOps }

/-- Body of the outer loop of `process_scraped_data`: completeness guard,
identity resolution for movie and cinema (with seen-set bookkeeping), then
the showtime loop. -/
def processItem (today now : Nat) (st : PState) (it : Item) : PState :=
  if itemComplete it then
    let (movie, db1) := getOrCreateMovie st.db (it.title.getD "") it.link
    let (seenM, mp) :=
      if movie.id ∈ st.movies_seen then
        (st.movies_seen, st.stats.movies_processed)
      else (st.movies_seen ++ [movie.id], st.stats.movies_processed + 1)
    let (cinema, db2) := getOrCreateCinema db1 (it.cinema.getD "")
      (it.location.getD "") (it.island.getD "")
    let (seenC, cp) :=
      if cinema.id ∈ st.cinemas_seen then
        (st.cinemas_seen, st.stats.cinemas_processed)
      else (st.cinemas_seen ++ [cinema.id], st.stats.cinemas_processed + 1)
    let stats1 := { st.stats with movies_processed := mp,
                                  cinemas_processed := cp }
    let st1 : PState := { db := db2, stats := stats1, movies_seen := seenM,
                          cinemas_seen := seenC, ops := st.ops }
    it.showtimes.foldl
      (processEntry today now movie.id cinema.id (it.version.getD "VOSE")) st1
  else st

/-- Fresh run state over a session. -/
def initPState (db : DB) : PState :=
  { db := db, stats := initStats, movies_seen := [], cinemas_seen := [],
    ops := [] }

/-- Model of `ScraperService.process_scraped_data` on the path where the single
batch-level commit succeeds (commit is a no-op on the explicit state); exact
for batches whose showtime lists repeat no composite key.  The flush-aware
`processScrapedDataF` below models the commit outcome itself. -/
def processScrapedData (today now : Nat) (db : DB) (items : List Item) :
    PState :=
  items.foldl (processItem today now) (initPState db)

/-- Body of the inner showtime loop of
`ScraperService._reprocess_with_individual_commits` (lines 258-309): parse
the entry (any `ValueError` is swallowed by the per-row handler), check
existence by composite key, then either INSERT and commit - the commit may
raise an `IntegrityError`, decided here by the `conflict` oracle on the key,
in which case the row is rolled back and skipped - or heartbeat-update the
existing row and commit. -/
def reprocessEntry (conflict : Nat → Nat → Nat → Nat → Bool)
    (today now mid cid : Nat) (version : String)
    (st : PState) (e : ShowtimeItem) : PState :=
  match parseEntry today e with
  | .skip => st
  | .err => st
  | .ok d t =>
      match st.db.showtimes.find? (keyMatch mid cid d t) with
      | none =>
          if conflict mid cid d t then
            { st with ops := st.ops ++ [.query mid cid d t, .insert mid cid d t] }
          else
            let s : Showtime := { movie_id := mid, cinema_id := cid,
                                  showtime_date := d, showtime_time := t,
                                  version := version, scraped_at := now,
                                  is_active := true }
            let stats' := { st.stats with showtimes_added := st.stats.showtimes_added + 1 }
            { st with db := { st.db with showtimes := st.db.showtimes ++ [s] },
                      stats := stats',
                      ops := st.ops ++ [.query mid cid d t, .insert mid cid d t] }
      | some _ =>
          let rows' := updateFirst (keyMatch mid cid d t)
            (fun s => { s with scraped_at := now, is_active := true })
            st.db.showtimes
          { st with db := { st.db with showtimes := rows' },
                    ops := st.ops ++ [.query mid cid d t, .update mid cid d t] }

/-- Body of the outer loop of `_reprocess_with_individual_commits`:
completeness guard, identity resolution with per-entity commits (identity
commits are assumed conflict-free), then the per-showtime loop. -/
def reprocessItem (conflict : Nat → Nat → Nat → Nat → Bool) (today now : Nat)
    (st : PState) (it : Item) : PState :=
  if itemComplete it then
    let (movie, db1) := getOrCreateMovie st.db (it.title.getD "") it.link
    let (seenM, mp) :=
      if movie.id ∈ st.movies_seen then
        (st.movies_seen, st.stats.movies_processed)
      else (st.movies_seen ++ [movie.id], st.stats.movies_processed + 1)
    let (cinema, db2) := getOrCreateCinema db1 (it.cinema.getD "")
      (it.location.getD "") (it.island.getD "")
    let (seenC, cp) :=
      if cinema.id ∈ st.cinemas_seen then
        (st.cinemas_seen, st.stats.cinemas_processed)
      else (st.cinemas_seen ++ [cinema.id], st.stats.cinemas_processed + 1)
    let stats1 := { st.stats with movies_processed := mp,
                                  cinemas_processed := cp }
    let st1 : PState := { db := db2, stats := stats1, movies_seen := seenM,
                          cinemas_seen := seenC, ops := st.ops }
    it.showtimes.foldl
      (reprocessEntry conflict today now movie.id cinema.id
        (it.version.getD "VOSE")) st1
  else st

/-- Model of `ScraperService._reprocess_with_individual_commits`: replay the whole
batch from a given session state with fresh stats, committing row by row. -/
def reprocessWithIndividualCommits (conflict : Nat → Nat → Nat → Nat → Bool)
    (today now : Nat) (db : DB) (items : List Item) : PState :=
  items.foldl (reprocessItem conflict today now) (initPState db)

/-- Model of `ScraperService.process_scraped_data` including the batch-level commit
(lines 199-215): when the commit raises an `IntegrityError` (modelled by
`commitFails`), the session is rolled back to the pre-batch state and the
batch is replayed by `_reprocess_with_individual_commits`, whose per-row
insert conflicts are decided by the `conflict` oracle; the replay's stats
are returned instead of the batch stats. -/
def processScrapedDataC (commitFails : Bool)
    (conflict : Nat → Nat → Nat → Nat → Bool)
    (today now : Nat) (db : DB) (items : List Item) : PState :=
  let st := processScrapedData today now db items
  if commitFails then reprocessWithIndividualCommits conflict today now db items
  else st

/-- Session state as the non-autoflushing SQLAlchemy session
(`sessionmaker(..., autoflush=False, ...)`) sees it: `dbc` is the
flushed/committed state, the only state queries can see; `pending` holds
showtime rows passed to `db.add` but not yet flushed (`add_showtime` never
flushes); `poisoned` records that a flush raised, after which every further
storage operation raises until a rollback. -/
structure SessionF where
  dbc : DB
  pending : List Showtime
  poisoned : Bool
  deriving Repr, DecidableEq

/-- Composite key of a row, as constrained by `uq_showtime`. -/
def rowKey (s : Showtime) : Nat × Nat × Nat × Nat :=
  (s.movie_id, s.cinema_id, s.showtime_date, s.showtime_time)

/-- Does some row of `rows` carry the same composite key as `p`? -/
def hasKey (rows : List Showtime) (p : Showtime) : Bool :=
  rows.any (fun r => rowKey r == rowKey p)

/-- Do two rows of the list share a composite key? -/
def hasDupKeys : List Showtime → Bool
  | [] => false
  | p :: rest => hasKey rest p || hasDupKeys rest

/-- Would flushing `pending` into `dbc` violate the `uq_showtime` unique
constraint? -/
def clashes (dbc : DB) (pending : List Showtime) : Bool :=
  hasDupKeys pending || pending.any (fun p => hasKey dbc.showtimes p)

/-- Model of `db.flush()`: write the pending showtime INSERTs into the
visible state.  On a uniqueness violation the real flush raises
`IntegrityError` and the session refuses further work until a rollback; the
model marks the session poisoned - a poisoned session's other fields are
never consulted again by any path below. -/
def flushF (ss : SessionF) : SessionF :=
  if clashes ss.dbc ss.pending then { ss with poisoned := true }
  else { ss with
    dbc := { ss.dbc with showtimes := ss.dbc.showtimes ++ ss.pending },
    pending := [] }

/-- Model of `ScraperService.get_or_create_movie` over the non-autoflushing
session.  The movie table itself is always current (every create or link
backfill calls `db.flush()` at once, so no movie row ever stays pending),
but those flushes also write the pending showtime rows and can therefore
raise. -/
def getOrCreateMovieF (ss : SessionF) (title : String)
    (link : Option String) : Movie × SessionF :=
  match ss.dbc.movies.find? (fun m => m.title == title) with
  | none =>
      let m : Movie := { id := ss.dbc.nextMovieId, title := title,
                         link := link, poster_url := none }
      let dbc1 := { ss.dbc with movies := ss.dbc.movies ++ [m],
                                nextMovieId := ss.dbc.nextMovieId + 1 }
      (m, flushF { ss with dbc := dbc1 })
  | some m =>
      if otruthy link && !otruthy m.link then
        let movies1 := updateFirst (fun x => x.title == title)
          (fun x => { x with link := link }) ss.dbc.movies
        ({ m with link := link },
         flushF { ss with dbc := { ss.dbc with movies := movies1 } })
      else
        (m, ss)

/-- Model of `ScraperService.get_or_create_cinema` over the non-autoflushing
session (creation flushes at once, lookup does not flush). -/
def getOrCreateCinemaF (ss : SessionF) (name location island : String) :
    Cinema × SessionF :=
  match ss.dbc.cinemas.find?
      (fun c => c.name == name && c.location == location) with
  | none =>
      let c : Cinema := { id := ss.dbc.nextCinemaId, name := name,
                          location := location, island := island,
                          address := none, website := none }
      let dbc1 := { ss.dbc with cinemas := ss.dbc.cinemas ++ [c],
                                nextCinemaId := ss.dbc.nextCinemaId + 1 }
      (c, flushF { ss with dbc := dbc1 })
  | some c => (c, ss)

/-- Model of `ScraperService.add_showtime` over the non-autoflushing
session: the existence query sees only flushed rows (`dbc`), never
`pending`, so a duplicate slot added earlier in the same unflushed batch is
NOT found and a second INSERT is attempted.  When a flushed row is found,
the heartbeat attribute mutation is applied to it in place: its real
deferral to the next flush is unobservable here, since queries filter on
key fields only and every rollback path below discards the batch state
wholesale. -/
def addShowtimeF (now : Nat) (ss : SessionF) (mid cid d t : Nat)
    (version : String) : Showtime × SessionF × List StorageOp :=
  match ss.dbc.showtimes.find? (keyMatch mid cid d t) with
  | some existing =>
      let rows1 := updateFirst (keyMatch mid cid d t)
        (fun s => { s with scraped_at := now, is_active := true })
        ss.dbc.showtimes
      ({ existing with scraped_at := now, is_active := true },
       { ss with dbc := { ss.dbc with showtimes := rows1 } },
       [.query mid cid d t, .update mid cid d t])
  | none =>
      let s : Showtime := { movie_id := mid, cinema_id := cid,
                            showtime_date := d, showtime_time := t,
                            version := version, scraped_at := now,
                            is_active := true }
      (s, { ss with pending := ss.pending ++ [s] },
       [.query mid cid d t, .insert mid cid d t])

/-- Run state of the batch phase over the non-autoflushing session. -/
structure PStateF where
  ss : SessionF
  stats : Stats
  movies_seen : List Nat
  cinemas_seen : List Nat
  ops : List StorageOp
  deriving Repr, DecidableEq

/-- Body of the inner showtime loop of `process_scraped_data` over the
non-autoflushing session; no flush happens here, so the only exceptions are
the parse errors. -/
def processEntryF (today now mid cid : Nat) (version : String)
    (st : PStateF) (e : ShowtimeItem) : PStateF :=
  match parseEntry today e with
  | .skip => st
  | .err =>
      let stats1 := { st.stats with
        errors := st.stats.errors ++ ["Time parse error"] }
      { st with stats := stats1 }
  | .ok d t =>
      let (_, ss1, newOps) := addShowtimeF now st.ss mid cid d t version
      let stats1 := { st.stats with
        showtimes_added := st.stats.showtimes_added + 1 }
      { st with ss := ss1, stats := stats1, ops := st.ops ++ newOps }

/-- Body of the outer loop of `process_scraped_data` over the
non-autoflushing session.  A query on a poisoned session raises; the
per-item handler catches the exception, appends it to `errors` and moves to
the next item, so a poisoned item contributes one error and nothing else; a
flush failure inside identity resolution aborts the rest of that item the
same way (the fields already assigned before the raise keep their
updates). -/
def processItemF (today now : Nat) (st : PStateF) (it : Item) : PStateF :=
  if itemComplete it then
    if st.ss.poisoned then
      { st with stats := { st.stats with
          errors := st.stats.errors ++ ["Session rolled back"] } }
    else
      let (movie, ss1) := getOrCreateMovieF st.ss (it.title.getD "") it.link
      if ss1.poisoned then
        { st with ss := ss1, stats := { st.stats with
            errors := st.stats.errors ++ ["Flush failed"] } }
      else
        let (seenM, mp) :=
          if movie.id ∈ st.movies_seen then
            (st.movies_seen, st.stats.movies_processed)
          else (st.movies_seen ++ [movie.id], st.stats.movies_processed + 1)
        let (cinema, ss2) := getOrCreateCinemaF ss1 (it.cinema.getD "")
          (it.location.getD "") (it.island.getD "")
        if ss2.poisoned then
          let stats2 := { st.stats with
            movies_processed := mp,
            errors := st.stats.errors ++ ["Flush failed"] }
          { st with ss := ss2, stats := stats2, movies_seen := seenM }
        else
          let (seenC, cp) :=
            if cinema.id ∈ st.cinemas_seen then
              (st.cinemas_seen, st.stats.cinemas_processed)
            else (st.cinemas_seen ++ [cinema.id],
                  st.stats.cinemas_processed + 1)
          let stats1 := { st.stats with movies_processed := mp,
                                        cinemas_processed := cp }
          let st1 : PStateF := { ss := ss2, stats := stats1,
                                 movies_seen := seenM,
                                 cinemas_seen := seenC, ops := st.ops }
          it.showtimes.foldl
            (processEntryF today now movie.id cinema.id
              (it.version.getD "VOSE")) st1
  else st

/-- Fresh batch-phase state over a committed database. -/
def initPStateF (db : DB) : PStateF :=
  { ss := { dbc := db, pending := [], poisoned := false },
    stats := initStats, movies_seen := [], cinemas_seen := [], ops := [] }

/-- Model of `ScraperService.process_scraped_data` over the real
non-autoflushing session, commit included.  A poisoned session makes the
final commit raise a non-IntegrityError (`PendingRollbackError`), caught by
the generic handler: rollback, error recorded, the batch stats returned, no
replay.  A commit whose flush violates `uq_showtime` (some composite key
duplicated among the rows pending at commit, or clashing with a flushed
row) raises `IntegrityError`: rollback to the pre-batch state and replay
through `_reprocess_with_individual_commits`, whose per-row commits cannot
conflict absent concurrent runs (conflict oracle constantly false); the
replay stats replace the batch stats.  Otherwise the commit flushes the
pending rows and succeeds.  The returned trace concatenates the batch-phase
storage operations with the replay operations. -/
def processScrapedDataF (today now : Nat) (db : DB) (items : List Item) :
    PState :=
  let stf := items.foldl (processItemF today now) (initPStateF db)
  if stf.ss.poisoned then
    { db := db,
      stats := { stf.stats with
        errors := stf.stats.errors ++ ["Commit failed"] },
      movies_seen := stf.movies_seen, cinemas_seen := stf.cinemas_seen,
      ops := stf.ops }
  else if clashes stf.ss.dbc stf.ss.pending then
    let replay := reprocessWithIndividualCommits (fun _ _ _ _ => false)
      today now db items
    { replay with ops := stf.ops ++ replay.ops }
  else
    { db := { stf.ss.dbc with
        showtimes := stf.ss.dbc.showtimes ++ stf.ss.pending },
      stats := stf.stats, movies_seen := stf.movies_seen,
      cinemas_seen := stf.cinemas_seen, ops := stf.ops }

/-- Model of `' '.join(v.split())`: collapse internal whitespace runs and strip. -/
def collapseWs (s : String) : String :=
  String.intercalate " "
    ((s.split Char.isWhitespace).filter (fun w => !(w == "")))

/-- One structured validation error of a pydantic field
(`field`/`message`/`type` entries built in `validate_movies`; the `type`
tag is omitted as redundant with `message` here). -/
structure FieldError where
  field : String
  message : String
  deriving Repr, DecidableEq

/-- The `ScrapedMovie.title` checks: required, pydantic
`min_length=1`/`max_length=500`, and the `validate_title` validator
(non-empty after whitespace collapsing). -/
def titleErrors (t : Option String) : List FieldError :=
  match t with
  | none => [{ field := "title", message := "Field required" }]
  | some s =>
      if s.length < 1 then
        [{ field := "title", message := "String should have at least 1 character" }]
      else if 500 < s.length then
        [{ field := "title", message := "String should have at most 500 characters" }]
      else if collapseWs s == "" then
        [{ field := "title", message := "Title cannot be empty after cleaning" }]
      else []

/-- The optional `ScrapedMovie.link` check (`max_length=1000`). -/
def linkErrors (l : Option String) : List FieldError :=
  match l with
  | none => []
  | some s =>
      if 1000 < s.length then
        [{ field := "link", message := "String should have at most 1000 characters" }]
      else []

/-- A required plain-string field with a maximum length
(`cinema`, `location`: `min_length=1`, `max_length=200`). -/
def reqStrErrors (fieldName : String) (maxLen : Nat) (v : Option String) :
    List FieldError :=
  match v with
  | none => [{ field := fieldName, message := "Field required" }]
  | some s =>
      if s.length < 1 then
        [{ field := fieldName, message := "String should have at least 1 character" }]
      else if maxLen < s.length then
        [{ field := fieldName, message := "String should have at most N characters" }]
      else []

/-- Optional meridiem suffix of the case-insensitive `validate_time`
pattern of `ScrapedShowtime` (an optional whitespace char, then AM/PM in
either case). -/
def meridiemOk : List Char → Bool
  | [] => true
  | [a, m] =>
      (a == 'A' || a == 'a' || a == 'P' || a == 'p') && (m == 'M' || m == 'm')
  | [w, a, m] =>
      w.isWhitespace &&
        (a == 'A' || a == 'a' || a == 'P' || a == 'p') && (m == 'M' || m == 'm')
  | _ => false

/-- Whether a time string matches the `validate_time` regex of
`ScrapedShowtime`: one or two digits, a colon, two digits, then an optional
meridiem suffix. -/
def timeFormatOk (s : String) : Bool :=
  match s.toList with
  | d1 :: ':' :: d3 :: d4 :: rest =>
      d1.isDigit && d3.isDigit && d4.isDigit && meridiemOk rest
  | d1 :: d2 :: ':' :: d3 :: d4 :: rest =>
      d1.isDigit && d2.isDigit && d3.isDigit && d4.isDigit && meridiemOk rest
  | _ => false

/-- Errors of one element of a `showtimes` list under the `ScrapedShowtime`
schema: a bare string is not a dict (pydantic type error); a dict needs a
`date` parsable as `%Y-%m-%d` (the same `strptime` as the engine, hence
`parseDate`) and a `time` matching the time regex. -/
def showtimeEntryErrors (i : Nat) (e : ShowtimeItem) : List FieldError :=
  match e with
  | .str _ =>
      [{ field := "showtimes." ++ toString i,
         message := "Input should be a valid dictionary" }]
  | .dict dateStr timeStr =>
      (match dateStr with
       | none => [{ field := "showtimes." ++ toString i ++ ".date",
                    message := "Field required" }]
       | some ds =>
           if (parseDate ds).isSome then []
           else [{ field := "showtimes." ++ toString i ++ ".date",
                   message := "Date must be in YYYY-MM-DD format" }]) ++
      (match timeStr with
       | none => [{ field := "showtimes." ++ toString i ++ ".time",
                    message := "Field required" }]
       | some ts =>
           if timeFormatOk ts then []
           else [{ field := "showtimes." ++ toString i ++ ".time",
                   message := "Time must be in HH:MM format" }])

/-- The `ScrapedMovie.showtimes` checks: required, `min_items=1`, and the
per-entry `ScrapedShowtime` schema. -/
def showtimesErrors (sw : Option (List ShowtimeItem)) : List FieldError :=
  match sw with
  | none => [{ field := "showtimes", message := "Field required" }]
  | some l =>
      if l.length < 1 then
        [{ field := "showtimes", message := "List should have at least 1 item" }]
      else (l.enum).flatMap (fun p => showtimeEntryErrors p.1 p.2)

/-- The `validate_island` check of `ScrapedMovie`. -/
def islandErrors (v : Option String) : List FieldError :=
  match v with
  | none => [{ field := "island", message := "Field required" }]
  | some s =>
      if ["Mallorca", "Menorca", "Ibiza", "Formentera"].contains s then []
      else [{ field := "island", message := "Island must be one of the Balearic Islands" }]

/-- Whether a two-character numeric field is at most `bound`. -/
def twoDigitLE (bound : Nat) (s : String) : Bool :=
  s.length == 2 &&
    (match s.toNat? with
     | some n => decide (n ≤ bound)
     | none => false)

/-- Seconds field of an ISO time, optionally with a fraction. -/
def secFieldOk (s : String) : Bool :=
  match s.splitOn "." with
  | [sec] => twoDigitLE 59 sec
  | [sec, frac] =>
      twoDigitLE 59 sec && !(frac == "") && frac.all Char.isDigit
  | _ => false

/-- Time-of-day part of an ISO timestamp: `HH:MM[:SS[.ffffff]]`. -/
def isoTimeOk (s : String) : Bool :=
  match s.splitOn ":" with
  | [h, m] => twoDigitLE 23 h && twoDigitLE 59 m
  | [h, m, sec] => twoDigitLE 23 h && twoDigitLE 59 m && secFieldOk sec
  | _ => false

/-- Model of `datetime.fromisoformat`, simplified to the shapes the
collectors emit: a valid `YYYY-MM-DD` date, optionally followed by a
one-character separator and a valid time of day. -/
def isoTimestampOk (s : String) : Bool :=
  (parseDate s).isSome ||
    ((parseDate (s.take 10)).isSome && decide (12 ≤ s.length) &&
      isoTimeOk (s.drop 11))

/-- The `validate_scraped_at` check of `ScrapedMovie`. -/
def scrapedAtErrors (v : Option String) : List FieldError :=
  match v with
  | none => [{ field := "scraped_at", message := "Field required" }]
  | some s =>
      if isoTimestampOk s then []
      else [{ field := "scraped_at", message := "scraped_at must be an ISO format datetime" }]

/-- One raw record as handed to the validator: an untyped dict whose
lookups yield `Option` (every field may be absent). -/
structure RawRecord where
  title : Option String
  link : Option String
  showtimes : Option (List ShowtimeItem)
  cinema : Option String
  location : Option String
  island : Option String
  version : Option String
  scraped_at : Option String
  deriving Repr, DecidableEq

/-- All pydantic errors of one raw record under the `ScrapedMovie` schema,
in field declaration order (`version` and `raw_text` are unchecked). -/
def recordErrors (r : RawRecord) : List FieldError :=
  titleErrors r.title ++ linkErrors r.link ++ showtimesErrors r.showtimes ++
    reqStrErrors "cinema" 200 r.cinema ++ reqStrErrors "location" 200 r.location ++
    islandErrors r.island ++ scrapedAtErrors r.scraped_at

/-- A validated `ScrapedMovie` object: the cleaned title, the defaulted
version, and the validated raw fields. -/
structure ScrapedMovieV where
  title : String
  link : Option String
  showtimes : List ShowtimeItem
  cinema : String
  location : String
  island : String
  version : String
  scraped_at : String
  deriving Repr, DecidableEq

/-- Construction of the `ScrapedMovie` object for a record with no errors
(title whitespace-collapsed by `validate_title`, `version` defaulted). -/
def mkValidated (r : RawRecord) : ScrapedMovieV :=
  { title := collapseWs (r.title.getD ""), link := r.link,
    showtimes := r.showtimes.getD [], cinema := r.cinema.getD "",
    location := r.location.getD "", island := r.island.getD "",
    version := r.version.getD "VOSE", scraped_at := r.scraped_at.getD "" }

/-- Model of the per-record outcome of `validate_movies`: the validated object when the
schema accepts the record. -/
def validateRecord (r : RawRecord) : Option ScrapedMovieV :=
  if recordErrors r = [] then some (mkValidated r) else none

/-- One `error_detail` dict appended by `validate_movies` for an invalid
record: input index, best-effort title/cinema, and the per-field errors. -/
structure ErrorDetail where
  index : Nat
  movie_title : String
  cinema : String
  errors : List FieldError
  deriving Repr, DecidableEq

/-- The `ScraperValidationResult` summary schema. -/
structure ScraperValidationResult where
  valid : Bool
  total_items : Nat
  valid_items : Nat
  invalid_items : Nat
  errors : List ErrorDetail
  warnings : List String
  deriving Repr, DecidableEq

/-- The enumerated loop of `validate_movies`, collecting accepted objects,
per-record error details and warnings in input order. -/
def validateLoop (idx : Nat) :
    List RawRecord → List ScrapedMovieV × List ErrorDetail × List String
  | [] => ([], [], [])
  | r :: rest =>
      let tail := validateLoop (idx + 1) rest
      match validateRecord r with
      | some v =>
          let warn : List String :=
            if 50 < v.showtimes.length then
              ["movie has an unusually high number of showtimes"]
            else []
          (v :: tail.1, tail.2.1, warn ++ tail.2.2)
      | none =>
          (tail.1,
           { index := idx, movie_title := r.title.getD "Unknown",
             cinema := r.cinema.getD "Unknown",
             errors := recordErrors r } :: tail.2.1,
           tail.2.2)

/-- Model of `ScraperDataValidator.validate_movies`: validate each record against the
`ScrapedMovie` schema, collecting the accepted objects and a structured
report; a bad record is recorded and excluded, never raised. -/
def validateMovies (movies : List RawRecord) :
    List ScrapedMovieV × ScraperValidationResult :=
  let res := validateLoop 0 movies
  (res.1,
   { valid := res.2.1.length == 0, total_items := movies.length,
     valid_items := res.1.length, invalid_items := res.2.1.length,
     errors := res.2.1, warnings := res.2.2 })

theorem find?_eq_none_updateFirst {α : Type} (p : α → Bool) (f : α → α)
    (l : List α) (h : l.find? p = none) : updateFirst p f l = l := by
  induction l with
  | nil => rfl
  | cons a l ih =>
      rw [List.find?_cons] at h
      cases hpa : p a with
      | true => simp [hpa] at h
      | false =>
        simp only [hpa] at h
        simp [updateFirst, hpa, ih h]

theorem find?_eq_some_updateFirst {α : Type} (p : α → Bool) (f : α → α)
    (l : List α) (x : α) (h : l.find? p = some x) :
    ∃ l1 l2, l = l1 ++ x :: l2 ∧ (∀ y ∈ l1, p y = false) ∧ p x = true ∧
      updateFirst p f l = l1 ++ f x :: l2 := by
  induction l with
  | nil => simp at h
  | cons a l ih =>
      rw [List.find?_cons] at h
      cases hpa : p a with
      | true =>
        simp only [hpa, cond_true, Option.some.injEq] at h
        subst h
        exact ⟨[], l, by simp, by simp, hpa, by simp [updateFirst, hpa]⟩
      | false =>
        simp only [hpa, cond_false] at h
        obtain ⟨l1, l2, hl, hl1, hx, hu⟩ := ih h
        exact ⟨a :: l1, l2, by simp [hl], by simpa [hpa] using hl1, hx,
          by simp [updateFirst, hpa, hu]⟩

theorem find?_append_of_some {α : Type} (p : α → Bool) (l l' : List α) (x : α)
    (h : l.find? p = some x) : (l ++ l').find? p = some x := by
  induction l with
  | nil => simp at h
  | cons a l ih =>
      rw [List.find?_cons] at h
      cases hpa : p a with
      | true =>
        simp only [hpa, cond_true] at h
        simp [List.find?_cons, hpa, h]
      | false =>
        simp only [hpa, cond_false] at h
        simp [List.find?_cons, hpa, ih h]

theorem find?_append_of_none {α : Type} (p : α → Bool) (l : List α) (x : α)
    (h : l.find? p = none) (hx : p x = true) :
    (l ++ [x]).find? p = some x := by
  induction l with
  | nil => simp [List.find?_cons, hx]
  | cons a l ih =>
      rw [List.find?_cons] at h
      cases hpa : p a with
      | true => simp [hpa] at h
      | false =>
        simp only [hpa, cond_false] at h
        simp [List.find?_cons, hpa, ih h]

theorem find?_prefix_none {α : Type} (p : α → Bool) (l1 l2 : List α) (z : α)
    (hl1 : ∀ y ∈ l1, p y = false) (hz : p z = true) :
    (l1 ++ z :: l2).find? p = some z := by
  induction l1 with
  | nil => simp [List.find?_cons, hz]
  | cons a l1 ih =>
      have hpa : p a = false := hl1 a (by simp)
      simp only [List.cons_append, List.find?_cons, hpa, cond_false]
      exact ih (fun y hy => hl1 y (by simp [hy]))

theorem find?_updateFirst_self {α : Type} (p : α → Bool) (f : α → α)
    (l : List α) (x : α) (h : l.find? p = some x) (hfx : p (f x) = true) :
    (updateFirst p f l).find? p = some (f x) := by
  obtain ⟨l1, l2, _, hl1, _, hu⟩ := find?_eq_some_updateFirst p f l x h
  rw [hu]
  exact find?_prefix_none p l1 l2 (f x) hl1 hfx

theorem find?_updateFirst_other {α : Type} (p q : α → Bool) (f : α → α)
    (l : List α) (x : α) (h : l.find? p = some x)
    (hf : ∀ y, p (f y) = p y) (hdisj : ∀ y, p y = true → q y = false) :
    (updateFirst q f l).find? p = some x := by
  induction l with
  | nil => simp at h
  | cons a l ih =>
      rw [List.find?_cons] at h
      cases hqa : q a with
      | true =>
        have hpa : p a = false := by
          cases hpa : p a with
          | false => rfl
          | true => rw [hdisj a hpa] at hqa; exact hqa.symm
        simp only [hpa, cond_false] at h
        have hpfa : p (f a) = false := by rw [hf a]; exact hpa
        simp [updateFirst, hqa, List.find?_cons, hpfa, h]
      | false =>
        cases hpa : p a with
        | true =>
          simp only [hpa, cond_true, Option.some.injEq] at h
          subst h
          simp [updateFirst, hqa, List.find?_cons, hpa]
        | false =>
          simp only [hpa, cond_false] at h
          simp [updateFirst, hqa, List.find?_cons, hpa, ih h]

/-- Sample rows and states used to instantiate theorems with hypotheses. -/
def wRow1 : Showtime :=
  { movie_id := 1, cinema_id := 2, showtime_date := 20250101,
    showtime_time := 1170, version := "VOSE", scraped_at := 5,
    is_active := true }

/-- A second sample row, dated later than `wRow1`. -/
def wRow2 : Showtime := { wRow1 with showtime_date := 20250103 }

/-- A sample database state holding the two sample rows. -/
def wDB : DB :=
  { movies := [], cinemas := [], showtimes := [wRow1, wRow2],
    nextMovieId := 1, nextCinemaId := 1 }

/-- C5: one sweeper run sets `active = false` on exactly the rows that are
active with date strictly before today, leaves every other row (in
particular rows dated today or later) completely unchanged, never errors
(it is a total function), and an immediately repeated run with the same
clock changes nothing and matches zero rows. -/
theorem markOldShowtimesInactive_spec (today : Nat) (db : DB) :
    List.Forall₂
      (fun s s' =>
        (s.showtime_date < today ∧ s.is_active = true →
          s' = { s with is_active := false }) ∧
        (¬(s.showtime_date < today ∧ s.is_active = true) → s' = s))
      db.showtimes (markOldShowtimesInactive today db).2.showtimes ∧
    (markOldShowtimesInactive today db).2.movies = db.movies ∧
    (markOldShowtimesInactive today db).2.cinemas = db.cinemas ∧
    markOldShowtimesInactive today (markOldShowtimesInactive today db).2
      = (0, (markOldShowtimesInactive today db).2) := by
  refine ⟨?_, rfl, rfl, ?_⟩
  · show List.Forall₂ _ db.showtimes (db.showtimes.map _)
    rw [List.forall₂_map_right_iff]
    rw [List.forall₂_same]
    intro s _
    constructor
    · intro hcond
      have : (decide (s.showtime_date < today) && s.is_active) = true := by
        simp [hcond.1, hcond.2]
      simp [this]
    · intro hcond
      have : (decide (s.showtime_date < today) && s.is_active) = false := by
        rw [Bool.and_eq_false_iff]
        by_cases hd : s.showtime_date < today
        · right
          cases ha : s.is_active with
          | true => exact absurd ⟨hd, ha⟩ hcond
          | false => rfl
        · left; simpa using hd
      simp [this]
  · have hall : ∀ s' ∈ (markOldShowtimesInactive today db).2.showtimes,
        (decide (s'.showtime_date < today) && s'.is_active) = false := by
      intro s' hs'
      simp only [markOldShowtimesInactive, List.mem_map] at hs'
      obtain ⟨s, _, rfl⟩ := hs'
      by_cases hp : (decide (s.showtime_date < today) && s.is_active) = true
      · simp [hp]
      · simp only [Bool.not_eq_true] at hp
        simp [hp]
    have hcount : (markOldShowtimesInactive today db).2.showtimes.countP
        (fun s => decide (s.showtime_date < today) && s.is_active) = 0 := by
      rw [List.countP_eq_zero]
      intro s hs
      simp [hall s hs]
    have hmap : (markOldShowtimesInactive today db).2.showtimes.map
        (fun s => if decide (s.showtime_date < today) && s.is_active then
            { s with is_active := false }
          else s) = (markOldShowtimesInactive today db).2.showtimes := by
      conv_rhs => rw [← List.map_id ((markOldShowtimesInactive today db).2.showtimes)]
      apply List.map_congr_left
      intro s hs
      simp [hall s hs]
    show (_, _) = _
    rw [hcount, hmap]

/-- C5 witness: on the sample state with one past and one future row, only
the past row is deactivated and a second sweep is a no-op. -/
theorem markOldShowtimesInactive_spec_witness :
    (markOldShowtimesInactive 20250102 wDB).2.showtimes
      = [{ wRow1 with is_active := false }, wRow2] ∧
    markOldShowtimesInactive 20250102 (markOldShowtimesInactive 20250102 wDB).2
      = (0, (markOldShowtimesInactive 20250102 wDB).2) :=
  ⟨by decide, (markOldShowtimesInactive_spec 20250102 wDB).2.2.2⟩

/-- C8: movie resolution looks up by exact title equality; when absent it
inserts exactly one new movie (with the incoming link) and returns it; when
present with a falsy stored link and a truthy incoming link it rewrites only
that movie's link field; in every other case the state is returned
completely unchanged, with the found row. -/
theorem getOrCreateMovie_spec (db : DB) (title : String) (link : Option String) :
    (db.movies.find? (fun m => m.title == title) = none →
      (getOrCreateMovie db title link).2.movies = db.movies ++
        [{ id := db.nextMovieId, title := title, link := link,
           poster_url := none }] ∧
      (getOrCreateMovie db title link).1 =
        { id := db.nextMovieId, title := title, link := link,
          poster_url := none } ∧
      (getOrCreateMovie db title link).2.cinemas = db.cinemas ∧
      (getOrCreateMovie db title link).2.showtimes = db.showtimes) ∧
    (∀ m, db.movies.find? (fun m => m.title == title) = some m →
      (otruthy link && !otruthy m.link) = true →
      ∃ l1 l2, db.movies = l1 ++ m :: l2 ∧
        (getOrCreateMovie db title link).2.movies =
          l1 ++ { m with link := link } :: l2 ∧
        (getOrCreateMovie db title link).1 = { m with link := link } ∧
        (getOrCreateMovie db title link).2.cinemas = db.cinemas ∧
        (getOrCreateMovie db title link).2.showtimes = db.showtimes) ∧
    (∀ m, db.movies.find? (fun m => m.title == title) = some m →
      (otruthy link && !otruthy m.link) = false →
      getOrCreateMovie db title link = (m, db)) := by
  refine ⟨?_, ?_, ?_⟩
  · intro h
    simp [getOrCreateMovie, h]
  · intro m h hb
    obtain ⟨l1, l2, hl, hl1, hx, hu⟩ :=
      find?_eq_some_updateFirst (fun x => x.title == title)
        (fun x => { x with link := link }) db.movies m h
    refine ⟨l1, l2, hl, ?_, ?_, ?_, ?_⟩ <;>
      simp [getOrCreateMovie, h, hb, hu]
  · intro m h hb
    simp [getOrCreateMovie, h, hb]

/-- A movie fixture for the C8 witness: stored without a link. -/
def wMovie : Movie :=
  { id := 7, title := "Ocean", link := none, poster_url := some "p" }

/-- A state holding only `wMovie`, for the C8 witness. -/
def wDBm : DB :=
  { movies := [wMovie], cinemas := [], showtimes := [],
    nextMovieId := 8, nextCinemaId := 1 }

/-- C8 witness: resolving the stored title with an incoming link backfills
exactly the link of the stored movie. -/
theorem getOrCreateMovie_spec_witness :
    ∃ l1 l2, wDBm.movies = l1 ++ wMovie :: l2 ∧
      (getOrCreateMovie wDBm "Ocean" (some "L")).2.movies =
        l1 ++ { wMovie with link := some "L" } :: l2 ∧
      (getOrCreateMovie wDBm "Ocean" (some "L")).1 =
        { wMovie with link := some "L" } ∧
      (getOrCreateMovie wDBm "Ocean" (some "L")).2.cinemas = wDBm.cinemas ∧
      (getOrCreateMovie wDBm "Ocean" (some "L")).2.showtimes =
        wDBm.showtimes :=
  (getOrCreateMovie_spec wDBm "Ocean" (some "L")).2.1 wMovie
    (by decide) (by decide)

/-- C2: upserting against an existing row with the same composite key
rewrites exactly that row - to the same row with `scraped_at := now` and
`is_active := true` - leaving the row count and every other row unchanged
and inserting nothing; upserting with no matching row appends exactly one
new row, which is active. -/
theorem addShowtime_upsert (now : Nat) (db : DB) (mid cid d t : Nat)
    (version : String) :
    (∀ s, db.showtimes.find? (keyMatch mid cid d t) = some s →
      ∃ l1 l2, db.showtimes = l1 ++ s :: l2 ∧
        (addShowtime now db mid cid d t version).2.1.showtimes =
          l1 ++ { s with scraped_at := now, is_active := true } :: l2 ∧
        (addShowtime now db mid cid d t version).2.1.showtimes.length =
          db.showtimes.length) ∧
    (db.showtimes.find? (keyMatch mid cid d t) = none →
      (addShowtime now db mid cid d t version).2.1.showtimes =
        db.showtimes ++
          [{ movie_id := mid, cinema_id := cid, showtime_date := d,
             showtime_time := t, version := version, scraped_at := now,
             is_active := true }]) := by
  constructor
  · intro s h
    obtain ⟨l1, l2, hl, hl1, hx, hu⟩ :=
      find?_eq_some_updateFirst (keyMatch mid cid d t)
        (fun s => { s with scraped_at := now, is_active := true })
        db.showtimes s h
    have e1 : (addShowtime now db mid cid d t version).2.1.showtimes =
        l1 ++ { s with scraped_at := now, is_active := true } :: l2 := by
      simp [addShowtime, h, hu]
    refine ⟨l1, l2, hl, e1, ?_⟩
    rw [e1, hl]
    simp
  · intro h
    simp [addShowtime, h]

/-- C2 witness: a heartbeat on the sample row leaves one row, updated in
place. -/
theorem addShowtime_upsert_witness :
    ∃ l1 l2, wDB.showtimes = l1 ++ wRow1 :: l2 ∧
      (addShowtime 9 wDB 1 2 20250101 1170 "VOSE").2.1.showtimes =
        l1 ++ { wRow1 with scraped_at := 9, is_active := true } :: l2 ∧
      (addShowtime 9 wDB 1 2 20250101 1170 "VOSE").2.1.showtimes.length =
        wDB.showtimes.length :=
  (addShowtime_upsert 9 wDB 1 2 20250101 1170 "VOSE").1 wRow1 (by decide)

/-- C10: a heartbeat (`add_showtime` finding a row by its composite key)
modifies only `scraped_at` and `is_active` of that row: its stored
`version`, movie/cinema references, date and time are kept even when the
call passes a different `version`; movies and cinemas are untouched. -/
theorem addShowtime_heartbeat_frame (now : Nat) (db : DB) (mid cid d t : Nat)
    (version : String) (s : Showtime)
    (h : db.showtimes.find? (keyMatch mid cid d t) = some s) :
    ∃ l1 l2, db.showtimes = l1 ++ s :: l2 ∧
      (addShowtime now db mid cid d t version).2.1.showtimes =
        l1 ++ { s with scraped_at := now, is_active := true } :: l2 ∧
      (addShowtime now db mid cid d t version).1.version = s.version ∧
      (addShowtime now db mid cid d t version).1.movie_id = s.movie_id ∧
      (addShowtime now db mid cid d t version).1.cinema_id = s.cinema_id ∧
      (addShowtime now db mid cid d t version).1.showtime_date =
        s.showtime_date ∧
      (addShowtime now db mid cid d t version).1.showtime_time =
        s.showtime_time ∧
      (addShowtime now db mid cid d t version).2.1.movies = db.movies ∧
      (addShowtime now db mid cid d t version).2.1.cinemas = db.cinemas := by
  obtain ⟨l1, l2, hl, hl1, hx, hu⟩ :=
    find?_eq_some_updateFirst (keyMatch mid cid d t)
      (fun s => { s with scraped_at := now, is_active := true })
      db.showtimes s h
  exact ⟨l1, l2, hl, by simp [addShowtime, h, hu], by simp [addShowtime, h],
    by simp [addShowtime, h], by simp [addShowtime, h],
    by simp [addShowtime, h], by simp [addShowtime, h],
    by simp [addShowtime, h], by simp [addShowtime, h]⟩

/-- C10 witness: a heartbeat with a different incoming version ("VO") keeps
the stored version ("VOSE") and the key fields of the sample row. -/
theorem addShowtime_heartbeat_frame_witness :
    ∃ l1 l2, wDB.showtimes = l1 ++ wRow1 :: l2 ∧
      (addShowtime 9 wDB 1 2 20250101 1170 "VO").2.1.showtimes =
        l1 ++ { wRow1 with scraped_at := 9, is_active := true } :: l2 ∧
      (addShowtime 9 wDB 1 2 20250101 1170 "VO").1.version = wRow1.version ∧
      (addShowtime 9 wDB 1 2 20250101 1170 "VO").1.movie_id = wRow1.movie_id ∧
      (addShowtime 9 wDB 1 2 20250101 1170 "VO").1.cinema_id = wRow1.cinema_id ∧
      (addShowtime 9 wDB 1 2 20250101 1170 "VO").1.showtime_date =
        wRow1.showtime_date ∧
      (addShowtime 9 wDB 1 2 20250101 1170 "VO").1.showtime_time =
        wRow1.showtime_time ∧
      (addShowtime 9 wDB 1 2 20250101 1170 "VO").2.1.movies = wDB.movies ∧
      (addShowtime 9 wDB 1 2 20250101 1170 "VO").2.1.cinemas = wDB.cinemas :=
  addShowtime_heartbeat_frame 9 wDB 1 2 20250101 1170 "VO" wRow1 (by decide)

theorem validateLoop_spec (idx : Nat) (ms : List RawRecord) :
    (validateLoop idx ms).1 = ms.filterMap validateRecord ∧
    (validateLoop idx ms).1.length =
      ms.countP (fun r => (validateRecord r).isSome) ∧
    (validateLoop idx ms).2.1.length =
      ms.countP (fun r => !(validateRecord r).isSome) ∧
    (validateLoop idx ms).1.length + (validateLoop idx ms).2.1.length =
      ms.length := by
  induction ms generalizing idx with
  | nil => simp [validateLoop]
  | cons r rest ih =>
      obtain ⟨ih1, ih2, ih3, ih4⟩ := ih (idx + 1)
      cases hv : validateRecord r with
      | some v =>
          have e1 : (validateLoop idx (r :: rest)).1 =
              v :: (validateLoop (idx + 1) rest).1 := by
            simp [validateLoop, hv]
          have e2 : (validateLoop idx (r :: rest)).2.1 =
              (validateLoop (idx + 1) rest).2.1 := by
            simp [validateLoop, hv]
          refine ⟨?_, ?_, ?_, ?_⟩
          · rw [e1, List.filterMap_cons, hv, ih1]
          · rw [e1, List.countP_cons]
            simp [hv, ih2]
          · rw [e2, List.countP_cons]
            simp [hv, ih3]
          · rw [e1, e2]
            simp only [List.length_cons]
            omega
      | none =>
          have e1 : (validateLoop idx (r :: rest)).1 =
              (validateLoop (idx + 1) rest).1 := by
            simp [validateLoop, hv]
          have e2 : (validateLoop idx (r :: rest)).2.1 =
              { index := idx, movie_title := r.title.getD "Unknown",
                cinema := r.cinema.getD "Unknown",
                errors := recordErrors r } :: (validateLoop (idx + 1) rest).2.1 := by
            simp only [validateLoop]
            rw [hv]
          refine ⟨?_, ?_, ?_, ?_⟩
          · rw [e1, List.filterMap_cons, hv, ih1]
          · rw [e1, List.countP_cons]
            simp [hv, ih2]
          · rw [e2, List.countP_cons]
            simp [hv, ih3]
          · rw [e1, e2]
            simp only [List.length_cons]
            omega

/-- C3: validation never raises (it is a total function returning both
pieces); a batch with `N` schema-valid and `M` schema-invalid records
yields exactly `N` accepted objects and exactly `M` per-record entries in
the report's error list - one record's invalidity never affects the
others. -/
theorem validateMovies_partial_acceptance (movies : List RawRecord) :
    (validateMovies movies).1.length =
      movies.countP (fun r => (validateRecord r).isSome) ∧
    (validateMovies movies).2.errors.length =
      movies.countP (fun r => !(validateRecord r).isSome) ∧
    (validateMovies movies).2.valid_items = (validateMovies movies).1.length ∧
    (validateMovies movies).2.invalid_items =
      (validateMovies movies).2.errors.length := by
  obtain ⟨h1, h2, h3, h4⟩ := validateLoop_spec 0 movies
  exact ⟨h2, h3, rfl, rfl⟩

/-- C9: the validation summary satisfies
`total_items = valid_items + invalid_items`, its `valid` flag is true
exactly when `invalid_items = 0`, and the accepted list is the
order-preserving sublist of schema-valid records. -/
theorem validateMovies_invariants (movies : List RawRecord) :
    (validateMovies movies).2.total_items =
      (validateMovies movies).2.valid_items +
        (validateMovies movies).2.invalid_items ∧
    ((validateMovies movies).2.valid = true ↔
      (validateMovies movies).2.invalid_items = 0) ∧
    (validateMovies movies).1 = movies.filterMap validateRecord := by
  obtain ⟨h1, h2, h3, h4⟩ := validateLoop_spec 0 movies
  refine ⟨?_, ?_, h1⟩
  · show movies.length =
      (validateLoop 0 movies).1.length + (validateLoop 0 movies).2.1.length
    omega
  · show ((validateLoop 0 movies).2.1.length == 0) = true ↔
      (validateLoop 0 movies).2.1.length = 0
    simp

theorem keyMatch_hb (mid cid d t now : Nat) (s : Showtime) :
    keyMatch mid cid d t { s with scraped_at := now, is_active := true } =
      keyMatch mid cid d t s := rfl

theorem keyMatch_eq_key (mid cid d t : Nat) (s : Showtime)
    (h : keyMatch mid cid d t s = true) :
    s.movie_id = mid ∧ s.cinema_id = cid ∧ s.showtime_date = d ∧
      s.showtime_time = t := by
  simp only [keyMatch, Bool.and_eq_true, beq_iff_eq] at h
  exact ⟨h.1.1.1, h.1.1.2, h.1.2, h.2⟩

theorem keyMatch_disjoint (mid cid d t mid' cid' d' t' : Nat)
    (hne : ¬(mid = mid' ∧ cid = cid' ∧ d = d' ∧ t = t')) (s : Showtime)
    (h : keyMatch mid cid d t s = true) :
    keyMatch mid' cid' d' t' s = false := by
  obtain ⟨h1, h2, h3, h4⟩ := keyMatch_eq_key mid cid d t s h
  cases hk : keyMatch mid' cid' d' t' s with
  | false => rfl
  | true =>
      obtain ⟨g1, g2, g3, g4⟩ := keyMatch_eq_key mid' cid' d' t' s hk
      exact absurd ⟨h1.symm.trans g1, h2.symm.trans g2, h3.symm.trans g3,
        h4.symm.trans g4⟩ hne

/-- There is a row with the given composite key and the first such row -
the one the heartbeat path would update - is active. -/
def firstActive (rows : List Showtime) (mid cid d t : Nat) : Prop :=
  ∃ s, rows.find? (keyMatch mid cid d t) = some s ∧ s.is_active = true

theorem addShowtime_movies (now : Nat) (db : DB) (mid cid d t : Nat)
    (v : String) : (addShowtime now db mid cid d t v).2.1.movies = db.movies := by
  cases h : db.showtimes.find? (keyMatch mid cid d t) <;> simp [addShowtime, h]

theorem addShowtime_cinemas (now : Nat) (db : DB) (mid cid d t : Nat)
    (v : String) : (addShowtime now db mid cid d t v).2.1.cinemas = db.cinemas := by
  cases h : db.showtimes.find? (keyMatch mid cid d t) <;> simp [addShowtime, h]

theorem addShowtime_firstActive_self (now : Nat) (db : DB) (mid cid d t : Nat)
    (v : String) :
    firstActive (addShowtime now db mid cid d t v).2.1.showtimes mid cid d t := by
  cases h : db.showtimes.find? (keyMatch mid cid d t) with
  | none =>
      refine ⟨{ movie_id := mid, cinema_id := cid, showtime_date := d,
                showtime_time := t, version := v, scraped_at := now,
                is_active := true }, ?_, rfl⟩
      have e : (addShowtime now db mid cid d t v).2.1.showtimes =
          db.showtimes ++
            [{ movie_id := mid, cinema_id := cid, showtime_date := d,
               showtime_time := t, version := v, scraped_at := now,
               is_active := true }] := by
        simp [addShowtime, h]
      rw [e]
      exact find?_append_of_none _ _ _ h (by simp [keyMatch])
  | some s =>
      refine ⟨{ s with scraped_at := now, is_active := true }, ?_, rfl⟩
      have e : (addShowtime now db mid cid d t v).2.1.showtimes =
          updateFirst (keyMatch mid cid d t)
            (fun s => { s with scraped_at := now, is_active := true })
            db.showtimes := by
        simp [addShowtime, h]
      rw [e]
      exact find?_updateFirst_self _ _ _ s h
        (by rw [keyMatch_hb]; exact List.find?_some h)

theorem addShowtime_firstActive_mono (now : Nat) (db : DB) (mid cid d t : Nat)
    (v : String) (mid' cid' d' t' : Nat)
    (h : firstActive db.showtimes mid' cid' d' t') :
    firstActive (addShowtime now db mid cid d t v).2.1.showtimes
      mid' cid' d' t' := by
  obtain ⟨s, hs, ha⟩ := h
  by_cases hk : mid' = mid ∧ cid' = cid ∧ d' = d ∧ t' = t
  · obtain ⟨rfl, rfl, rfl, rfl⟩ := hk
    exact addShowtime_firstActive_self now db mid' cid' d' t' v
  · cases hfind : db.showtimes.find? (keyMatch mid cid d t) with
    | none =>
        refine ⟨s, ?_, ha⟩
        have e : (addShowtime now db mid cid d t v).2.1.showtimes =
            db.showtimes ++
              [{ movie_id := mid, cinema_id := cid, showtime_date := d,
                 showtime_time := t, version := v, scraped_at := now,
                 is_active := true }] := by
          simp [addShowtime, hfind]
        rw [e]
        exact find?_append_of_some _ _ _ _ hs
    | some s0 =>
        refine ⟨s, ?_, ha⟩
        have e : (addShowtime now db mid cid d t v).2.1.showtimes =
            updateFirst (keyMatch mid cid d t)
              (fun s => { s with scraped_at := now, is_active := true })
              db.showtimes := by
          simp [addShowtime, hfind]
        rw [e]
        refine find?_updateFirst_other _ _ _ _ _ hs (fun y => keyMatch_hb _ _ _ _ _ y) ?_
        intro y hy
        exact keyMatch_disjoint mid' cid' d' t' mid cid d t hk y hy

theorem processEntry_movies (today now mid cid : Nat) (v : String)
    (st : PState) (e : ShowtimeItem) :
    (processEntry today now mid cid v st e).db.movies = st.db.movies := by
  cases hp : parseEntry today e with
  | skip => simp [processEntry, hp]
  | err => simp [processEntry, hp]
  | ok d t =>
      rcases hA : addShowtime now st.db mid cid d t v with ⟨r, db', ops⟩
      have h2 := addShowtime_movies now st.db mid cid d t v
      rw [hA] at h2
      simp only [processEntry, hp, hA]
      exact h2

theorem processEntry_cinemas (today now mid cid : Nat) (v : String)
    (st : PState) (e : ShowtimeItem) :
    (processEntry today now mid cid v st e).db.cinemas = st.db.cinemas := by
  cases hp : parseEntry today e with
  | skip => simp [processEntry, hp]
  | err => simp [processEntry, hp]
  | ok d t =>
      rcases hA : addShowtime now st.db mid cid d t v with ⟨r, db', ops⟩
      have h2 := addShowtime_cinemas now st.db mid cid d t v
      rw [hA] at h2
      simp only [processEntry, hp, hA]
      exact h2

theorem processEntry_firstActive_mono (today now mid cid : Nat) (v : String)
    (st : PState) (e : ShowtimeItem) (mid' cid' d' t' : Nat)
    (h : firstActive st.db.showtimes mid' cid' d' t') :
    firstActive (processEntry today now mid cid v st e).db.showtimes
      mid' cid' d' t' := by
  cases hp : parseEntry today e with
  | skip => simpa [processEntry, hp] using h
  | err => simpa [processEntry, hp] using h
  | ok d t =>
      rcases hA : addShowtime now st.db mid cid d t v with ⟨r, db', ops⟩
      have hm := addShowtime_firstActive_mono now st.db mid cid d t v
        mid' cid' d' t' h
      rw [hA] at hm
      simpa [processEntry, hp, hA] using hm

theorem processEntry_firstActive_self (today now mid cid : Nat) (v : String)
    (st : PState) (e : ShowtimeItem) (d t : Nat)
    (hp : parseEntry today e = EntryResult.ok d t) :
    firstActive (processEntry today now mid cid v st e).db.showtimes
      mid cid d t := by
  rcases hA : addShowtime now st.db mid cid d t v with ⟨r, db', ops⟩
  have hm := addShowtime_firstActive_self now st.db mid cid d t v
  rw [hA] at hm
  simpa [processEntry, hp, hA] using hm

theorem foldl_processEntry_movies (today now mid cid : Nat) (v : String)
    (entries : List ShowtimeItem) (st : PState) :
    ((entries.foldl (processEntry today now mid cid v) st).db.movies =
      st.db.movies) := by
  induction entries generalizing st with
  | nil => rfl
  | cons a rest ih =>
      rw [List.foldl_cons, ih]
      exact processEntry_movies today now mid cid v st a

theorem foldl_processEntry_cinemas (today now mid cid : Nat) (v : String)
    (entries : List ShowtimeItem) (st : PState) :
    ((entries.foldl (processEntry today now mid cid v) st).db.cinemas =
      st.db.cinemas) := by
  induction entries generalizing st with
  | nil => rfl
  | cons a rest ih =>
      rw [List.foldl_cons, ih]
      exact processEntry_cinemas today now mid cid v st a

theorem foldl_processEntry_firstActive_mono (today now mid cid : Nat)
    (v : String) (entries : List ShowtimeItem) (st : PState)
    (mid' cid' d' t' : Nat) (h : firstActive st.db.showtimes mid' cid' d' t') :
    firstActive
      ((entries.foldl (processEntry today now mid cid v) st).db.showtimes)
      mid' cid' d' t' := by
  induction entries generalizing st with
  | nil => exact h
  | cons a rest ih =>
      rw [List.foldl_cons]
      exact ih _ (processEntry_firstActive_mono today now mid cid v st a
        mid' cid' d' t' h)

theorem foldl_processEntry_establish (today now mid cid : Nat) (v : String)
    (entries : List ShowtimeItem) (st : PState) :
    ∀ e ∈ entries, ∀ d t, parseEntry today e = EntryResult.ok d t →
      firstActive
        ((entries.foldl (processEntry today now mid cid v) st).db.showtimes)
        mid cid d t := by
  induction entries generalizing st with
  | nil => simp
  | cons a rest ih =>
      intro e he d t hp
      rcases List.mem_cons.mp he with rfl | hmem
      · rw [List.foldl_cons]
        exact foldl_processEntry_firstActive_mono today now mid cid v rest _
          mid cid d t
          (processEntry_firstActive_self today now mid cid v st e d t hp)
      · rw [List.foldl_cons]
        exact ih _ e hmem d t hp

/-- The movie resolution step would succeed without touching the session:
the first exact-title match is `m` and the link-backfill condition is
false.  One engine run establishes this for the next run. -/
def resolvedMovie (movies : List Movie) (title : String)
    (ilink : Option String) (m : Movie) : Prop :=
  movies.find? (fun x => x.title == title) = some m ∧
    (otruthy ilink && !otruthy m.link) = false

theorem getOrCreateMovie_noop (db : DB) (T : String) (ilink : Option String)
    (m : Movie) (h : resolvedMovie db.movies T ilink m) :
    getOrCreateMovie db T ilink = (m, db) := by
  simp [getOrCreateMovie, h.1, h.2]

theorem getOrCreateMovie_establish (db : DB) (T : String)
    (ilink : Option String) :
    resolvedMovie (getOrCreateMovie db T ilink).2.movies T ilink
      (getOrCreateMovie db T ilink).1 := by
  cases h : db.movies.find? (fun x => x.title == T) with
  | none =>
      constructor
      · simp only [getOrCreateMovie, h]
        exact find?_append_of_none _ _ _ h (by simp)
      · simp [getOrCreateMovie, h, Bool.and_not_self]
  | some m =>
      by_cases hb : (otruthy ilink && !otruthy m.link) = true
      · have hpm : ((fun x => x.title == T) m) = true :=
          @List.find?_some _ (fun x => x.title == T) m db.movies h
        refine ⟨?_, ?_⟩
        · simp only [getOrCreateMovie, h, hb, if_true]
          exact find?_updateFirst_self (fun x => x.title == T)
            (fun x => { x with link := ilink }) db.movies m h hpm
        · simp [getOrCreateMovie, h, hb]
      · rw [Bool.not_eq_true] at hb
        constructor
        · simp [getOrCreateMovie, h, hb]
        · simp only [getOrCreateMovie, h, hb, Bool.false_eq_true, if_false]

theorem getOrCreateMovie_mono (db : DB) (T : String) (ilink : Option String)
    (T' : String) (ilink' : Option String) (m' : Movie)
    (h : resolvedMovie db.movies T' ilink' m') :
    ∃ m2, resolvedMovie (getOrCreateMovie db T ilink).2.movies T' ilink' m2 ∧
      m2.id = m'.id := by
  obtain ⟨hf, hc⟩ := h
  cases h0 : db.movies.find? (fun x => x.title == T) with
  | none =>
      refine ⟨m', ⟨?_, hc⟩, rfl⟩
      simp only [getOrCreateMovie, h0]
      exact find?_append_of_some _ _ _ _ hf
  | some m0 =>
      by_cases hb : (otruthy ilink && !otruthy m0.link) = true
      · by_cases hT : T' = T
        · subst hT
          rw [hf] at h0
          injection h0 with h0
          subst h0
          have hpm : ((fun x => x.title == T') m') = true :=
            @List.find?_some _ (fun x => x.title == T') m' db.movies hf
          refine ⟨{ m' with link := ilink }, ⟨?_, ?_⟩, rfl⟩
          · simp only [getOrCreateMovie, hf, hb, if_true]
            exact find?_updateFirst_self (fun x => x.title == T')
              (fun x => { x with link := ilink }) db.movies m' hf hpm
          · have hl : otruthy ilink = true := by
              revert hb
              cases otruthy ilink <;> simp
            simp [hl]
        · refine ⟨m', ⟨?_, hc⟩, rfl⟩
          simp only [getOrCreateMovie, h0, hb, if_true]
          refine find?_updateFirst_other _ _ _ _ _ hf (fun y => rfl) ?_
          intro y hy
          rw [beq_iff_eq] at hy
          rw [beq_eq_false_iff_ne]
          rw [hy]
          exact hT
      · refine ⟨m', ⟨?_, hc⟩, rfl⟩
        rw [Bool.not_eq_true] at hb
        simp [getOrCreateMovie, h0, hb, hf]

theorem getOrCreateMovie_cinemas (db : DB) (T : String)
    (ilink : Option String) :
    (getOrCreateMovie db T ilink).2.cinemas = db.cinemas := by
  cases h : db.movies.find? (fun x => x.title == T) with
  | none => simp [getOrCreateMovie, h]
  | some m =>
      by_cases hb : (otruthy ilink && !otruthy m.link) = true
      · simp [getOrCreateMovie, h, hb]
      · rw [Bool.not_eq_true] at hb
        simp [getOrCreateMovie, h, hb]

theorem getOrCreateMovie_showtimes (db : DB) (T : String)
    (ilink : Option String) :
    (getOrCreateMovie db T ilink).2.showtimes = db.showtimes := by
  cases h : db.movies.find? (fun x => x.title == T) with
  | none => simp [getOrCreateMovie, h]
  | some m =>
      by_cases hb : (otruthy ilink && !otruthy m.link) = true
      · simp [getOrCreateMovie, h, hb]
      · rw [Bool.not_eq_true] at hb
        simp [getOrCreateMovie, h, hb]

theorem getOrCreateCinema_noop (db : DB) (n l i : String) (c : Cinema)
    (h : db.cinemas.find? (fun x => x.name == n && x.location == l) = some c) :
    getOrCreateCinema db n l i = (c, db) := by
  simp [getOrCreateCinema, h]

theorem getOrCreateCinema_establish (db : DB) (n l i : String) :
    (getOrCreateCinema db n l i).2.cinemas.find?
        (fun x => x.name == n && x.location == l) =
      some (getOrCreateCinema db n l i).1 := by
  cases h : db.cinemas.find? (fun x => x.name == n && x.location == l) with
  | none =>
      simp only [getOrCreateCinema, h]
      exact find?_append_of_none _ _ _ h (by simp)
  | some c => simp [getOrCreateCinema, h]

theorem getOrCreateCinema_mono (db : DB) (n l i : String) (p : Cinema → Bool)
    (c : Cinema) (h : db.cinemas.find? p = some c) :
    (getOrCreateCinema db n l i).2.cinemas.find? p = some c := by
  cases h0 : db.cinemas.find? (fun x => x.name == n && x.location == l) with
  | none =>
      simp only [getOrCreateCinema, h0]
      exact find?_append_of_some _ _ _ _ h
  | some c0 => simp [getOrCreateCinema, h0, h]

theorem getOrCreateCinema_movies (db : DB) (n l i : String) :
    (getOrCreateCinema db n l i).2.movies = db.movies := by
  cases h : db.cinemas.find? (fun x => x.name == n && x.location == l) <;>
    simp [getOrCreateCinema, h]

theorem getOrCreateCinema_showtimes (db : DB) (n l i : String) :
    (getOrCreateCinema db n l i).2.showtimes = db.showtimes := by
  cases h : db.cinemas.find? (fun x => x.name == n && x.location == l) <;>
    simp [getOrCreateCinema, h]

/-- One engine step only grows the session in ways that preserve resolution
results: resolved movies keep their id and stay resolved, found cinemas
survive, and first-match-active showtime rows stay first-match-active. -/
def Evolves (db db' : DB) : Prop :=
  (∀ T ilink m, resolvedMovie db.movies T ilink m →
      ∃ m2, resolvedMovie db'.movies T ilink m2 ∧ m2.id = m.id) ∧
  (∀ p : Cinema → Bool, ∀ c, db.cinemas.find? p = some c →
      db'.cinemas.find? p = some c) ∧
  (∀ mid cid d t, firstActive db.showtimes mid cid d t →
      firstActive db'.showtimes mid cid d t)

theorem evolves_refl (db : DB) : Evolves db db :=
  ⟨fun _ _ m h => ⟨m, h, rfl⟩, fun _ _ h => h, fun _ _ _ _ h => h⟩

theorem evolves_trans {a b c : DB} (h1 : Evolves a b) (h2 : Evolves b c) :
    Evolves a c := by
  obtain ⟨m1, c1, s1⟩ := h1
  obtain ⟨m2, c2, s2⟩ := h2
  refine ⟨?_, fun p c h => c2 p c (c1 p c h),
    fun mid cid d t h => s2 _ _ _ _ (s1 _ _ _ _ h)⟩
  intro T il m h
  obtain ⟨ma, ha, hid⟩ := m1 T il m h
  obtain ⟨mb, hb, hid2⟩ := m2 T il ma ha
  exact ⟨mb, hb, hid2.trans hid⟩

theorem evolves_getOrCreateMovie (db : DB) (T : String) (il : Option String) :
    Evolves db (getOrCreateMovie db T il).2 := by
  refine ⟨fun T' il' m' h => getOrCreateMovie_mono db T il T' il' m' h,
    ?_, ?_⟩
  · intro p c h
    rw [getOrCreateMovie_cinemas]
    exact h
  · intro mid cid d t h
    unfold firstActive
    rw [getOrCreateMovie_showtimes]
    exact h

theorem evolves_getOrCreateCinema (db : DB) (n l i : String) :
    Evolves db (getOrCreateCinema db n l i).2 := by
  refine ⟨?_, fun p c h => getOrCreateCinema_mono db n l i p c h, ?_⟩
  · intro T' il' m' h
    refine ⟨m', ⟨?_, h.2⟩, rfl⟩
    rw [getOrCreateCinema_movies]
    exact h.1
  · intro mid cid d t h
    unfold firstActive
    rw [getOrCreateCinema_showtimes]
    exact h

theorem evolves_processEntry (today now mid cid : Nat) (v : String)
    (st : PState) (e : ShowtimeItem) :
    Evolves st.db (processEntry today now mid cid v st e).db := by
  refine ⟨?_, ?_, ?_⟩
  · intro T' il' m' h
    refine ⟨m', ⟨?_, h.2⟩, rfl⟩
    rw [processEntry_movies]
    exact h.1
  · intro p c h
    rw [processEntry_cinemas]
    exact h
  · exact fun mid' cid' d' t' h =>
      processEntry_firstActive_mono today now mid cid v st e mid' cid' d' t' h

theorem evolves_foldl_processEntry (today now mid cid : Nat) (v : String)
    (entries : List ShowtimeItem) (st : PState) :
    Evolves st.db
      ((entries.foldl (processEntry today now mid cid v) st).db) := by
  induction entries generalizing st with
  | nil => exact evolves_refl _
  | cons a rest ih =>
      rw [List.foldl_cons]
      exact evolves_trans (evolves_processEntry today now mid cid v st a)
        (ih _)

theorem processItem_shape (today now : Nat) (st : PState) (it : Item)
    (hc : itemComplete it = true) :
    ∃ st1 : PState,
      st1.db = (getOrCreateCinema
          (getOrCreateMovie st.db (it.title.getD "") it.link).2
          (it.cinema.getD "") (it.location.getD "") (it.island.getD "")).2 ∧
      st1.ops = st.ops ∧
      processItem today now st it =
        it.showtimes.foldl
          (processEntry today now
            (getOrCreateMovie st.db (it.title.getD "") it.link).1.id
            (getOrCreateCinema
              (getOrCreateMovie st.db (it.title.getD "") it.link).2
              (it.cinema.getD "") (it.location.getD "") (it.island.getD "")).1.id
            (it.version.getD "VOSE")) st1 := by
  rcases hM : getOrCreateMovie st.db (it.title.getD "") it.link with ⟨movie, db1⟩
  rcases hC : getOrCreateCinema db1 (it.cinema.getD "") (it.location.getD "")
    (it.island.getD "") with ⟨cinema, db2⟩
  simp only [processItem, hc, if_true, hM, hC]
  refine ⟨_, ?_, ?_, rfl⟩ <;> rfl

theorem evolves_processItem (today now : Nat) (st : PState) (it : Item) :
    Evolves st.db (processItem today now st it).db := by
  by_cases hc : itemComplete it = true
  · obtain ⟨st1, hdb1, hops1, heq⟩ := processItem_shape today now st it hc
    rw [heq]
    refine evolves_trans ?_ (evolves_foldl_processEntry _ _ _ _ _ _ st1)
    rw [hdb1]
    exact evolves_trans
      (evolves_getOrCreateMovie st.db (it.title.getD "") it.link)
      (evolves_getOrCreateCinema _ (it.cinema.getD "") (it.location.getD "")
        (it.island.getD ""))
  · rw [Bool.not_eq_true] at hc
    simp only [processItem, hc, Bool.false_eq_true, if_false]
    exact evolves_refl _

theorem evolves_foldl_processItem (today now : Nat) (items : List Item)
    (st : PState) :
    Evolves st.db ((items.foldl (processItem today now) st).db) := by
  induction items generalizing st with
  | nil => exact evolves_refl _
  | cons a rest ih =>
      rw [List.foldl_cons]
      exact evolves_trans (evolves_processItem today now st a) (ih _)

/-- After one run has processed an item, the session "covers" it: the
movie resolves without modification, the cinema is found, and every
parseable showtime entry has a first-match-active row.  A second run over a
covering session can only touch `scraped_at` timestamps. -/
def coversItem (today : Nat) (db : DB) (it : Item) : Prop :=
  itemComplete it = true →
    ∃ m c, resolvedMovie db.movies (it.title.getD "") it.link m ∧
      db.cinemas.find?
          (fun x => x.name == it.cinema.getD "" &&
            x.location == it.location.getD "") = some c ∧
      ∀ e ∈ it.showtimes, ∀ d t, parseEntry today e = EntryResult.ok d t →
        firstActive db.showtimes m.id c.id d t

theorem covers_evolves (today : Nat) (db db' : DB) (it : Item)
    (h : coversItem today db it) (he : Evolves db db') :
    coversItem today db' it := by
  intro hc
  obtain ⟨m, c, hm, hcin, hsw⟩ := h hc
  obtain ⟨hem, hec, hes⟩ := he
  obtain ⟨m2, hm2, hid⟩ := hem _ _ m hm
  refine ⟨m2, c, hm2, hec _ c hcin, ?_⟩
  intro e hee d t hp
  rw [hid]
  exact hes _ _ _ _ (hsw e hee d t hp)

theorem covers_establish (today now : Nat) (st : PState) (it : Item) :
    coversItem today (processItem today now st it).db it := by
  intro hc
  obtain ⟨st1, hdb1, hops1, heq⟩ := processItem_shape today now st it hc
  rw [heq]
  refine ⟨(getOrCreateMovie st.db (it.title.getD "") it.link).1,
    (getOrCreateCinema (getOrCreateMovie st.db (it.title.getD "") it.link).2
      (it.cinema.getD "") (it.location.getD "") (it.island.getD "")).1,
    ?_, ?_, ?_⟩
  · rw [foldl_processEntry_movies, hdb1, getOrCreateCinema_movies]
    exact getOrCreateMovie_establish st.db (it.title.getD "") it.link
  · rw [foldl_processEntry_cinemas, hdb1]
    exact getOrCreateCinema_establish _ _ _ _
  · intro e hee d t hp
    exact foldl_processEntry_establish today now
      (getOrCreateMovie st.db (it.title.getD "") it.link).1.id
      (getOrCreateCinema (getOrCreateMovie st.db (it.title.getD "") it.link).2
        (it.cinema.getD "") (it.location.getD "") (it.island.getD "")).1.id
      (it.version.getD "VOSE") it.showtimes st1 e hee d t hp

/-- Forget the last-confirmed timestamp of a row. -/
def stripTs (s : Showtime) : Showtime := { s with scraped_at := 0 }

theorem keyMatch_stripTs (mid cid d t : Nat) (s : Showtime) :
    keyMatch mid cid d t (stripTs s) = keyMatch mid cid d t s := rfl

/-- A step changed at most `scraped_at` values of showtime rows and nothing
else of the session. -/
def stripOnly (db db' : DB) : Prop :=
  db'.movies = db.movies ∧ db'.cinemas = db.cinemas ∧
    db'.showtimes.map stripTs = db.showtimes.map stripTs

theorem stripOnly_refl (db : DB) : stripOnly db db := ⟨rfl, rfl, rfl⟩

theorem stripOnly_trans {a b c : DB} (h1 : stripOnly a b) (h2 : stripOnly b c) :
    stripOnly a c :=
  ⟨h2.1.trans h1.1, h2.2.1.trans h1.2.1, h2.2.2.trans h1.2.2⟩

theorem firstActive_stripEq (l l' : List Showtime)
    (h : l'.map stripTs = l.map stripTs) (mid cid d t : Nat)
    (hf : firstActive l mid cid d t) : firstActive l' mid cid d t := by
  induction l generalizing l' with
  | nil =>
      obtain ⟨s, hs, _⟩ := hf
      simp at hs
  | cons a l ih =>
      cases l' with
      | nil => simp at h
      | cons a' l'2 =>
          simp only [List.map_cons, List.cons.injEq] at h
          obtain ⟨ha, hl⟩ := h
          obtain ⟨s, hs, hact⟩ := hf
          have hkeq : keyMatch mid cid d t a' = keyMatch mid cid d t a := by
            rw [← keyMatch_stripTs mid cid d t a', ha, keyMatch_stripTs]
          have hacteq : a'.is_active = a.is_active := by
            have h2 := congrArg Showtime.is_active ha
            simpa [stripTs] using h2
          rw [List.find?_cons] at hs
          cases hka : keyMatch mid cid d t a with
          | true =>
              simp only [hka, cond_true, Option.some.injEq] at hs
              subst hs
              refine ⟨a', ?_, by rw [hacteq]; exact hact⟩
              simp [List.find?_cons, hkeq, hka]
          | false =>
              simp only [hka, cond_false] at hs
              obtain ⟨s', hs', hact'⟩ := ih l'2 hl ⟨s, hs, hact⟩
              refine ⟨s', ?_, hact'⟩
              simp [List.find?_cons, hkeq, hka, hs']

theorem covers_stripOnly (today : Nat) (db db' : DB) (it : Item)
    (h : coversItem today db it) (hs : stripOnly db db') :
    coversItem today db' it := by
  intro hc
  obtain ⟨m, c, hm, hcin, hsw⟩ := h hc
  obtain ⟨h1, h2, h3⟩ := hs
  refine ⟨m, c, ?_, ?_, ?_⟩
  · unfold resolvedMovie
    rw [h1]
    exact hm
  · rw [h2]
    exact hcin
  · intro e hee d t hp
    exact firstActive_stripEq _ _ h3 _ _ _ _ (hsw e hee d t hp)

theorem stripTs_hb_of_active (now : Nat) (s : Showtime)
    (h : s.is_active = true) :
    stripTs { s with scraped_at := now, is_active := true } = stripTs s := by
  cases s
  simp only [stripTs]
  simp_all

theorem processEntry_strip (today now mid cid : Nat) (v : String)
    (st : PState) (e : ShowtimeItem)
    (hcov : ∀ d t, parseEntry today e = EntryResult.ok d t →
      firstActive st.db.showtimes mid cid d t) :
    stripOnly st.db (processEntry today now mid cid v st e).db := by
  cases hp : parseEntry today e with
  | skip => simp [processEntry, hp, stripOnly_refl]
  | err => simp [processEntry, hp, stripOnly_refl]
  | ok d t =>
      obtain ⟨s, hs, hact⟩ := hcov d t hp
      rcases hA : addShowtime now st.db mid cid d t v with ⟨r, db', ops⟩
      have e2 : (addShowtime now st.db mid cid d t v).2.1.showtimes =
          updateFirst (keyMatch mid cid d t)
            (fun x => { x with scraped_at := now, is_active := true })
            st.db.showtimes := by
        simp [addShowtime, hs]
      rw [hA] at e2
      have em := addShowtime_movies now st.db mid cid d t v
      have ec := addShowtime_cinemas now st.db mid cid d t v
      rw [hA] at em ec
      obtain ⟨l1, l2, hl, hl1, hx, hu⟩ :=
        find?_eq_some_updateFirst (keyMatch mid cid d t)
          (fun x => { x with scraped_at := now, is_active := true })
          st.db.showtimes s hs
      refine ⟨?_, ?_, ?_⟩
      · simp only [processEntry, hp, hA]
        exact em
      · simp only [processEntry, hp, hA]
        exact ec
      · simp only [processEntry, hp, hA]
        rw [e2, hu, hl]
        simp only [List.map_append, List.map_cons]
        rw [stripTs_hb_of_active now s hact]

theorem foldl_processEntry_strip (today now mid cid : Nat) (v : String)
    (entries : List ShowtimeItem) (st : PState)
    (hcov : ∀ e ∈ entries, ∀ d t, parseEntry today e = EntryResult.ok d t →
      firstActive st.db.showtimes mid cid d t) :
    stripOnly st.db
      ((entries.foldl (processEntry today now mid cid v) st).db) := by
  induction entries generalizing st with
  | nil => exact stripOnly_refl _
  | cons a rest ih =>
      rw [List.foldl_cons]
      have h1 : stripOnly st.db (processEntry today now mid cid v st a).db :=
        processEntry_strip today now mid cid v st a
          (fun d t hp => hcov a (by simp) d t hp)
      refine stripOnly_trans h1 (ih _ ?_)
      intro e hee d t hp
      exact firstActive_stripEq _ _ h1.2.2 _ _ _ _
        (hcov e (by simp [hee]) d t hp)

theorem processItem_strip (today now : Nat) (st : PState) (it : Item)
    (hcov : coversItem today st.db it) :
    stripOnly st.db (processItem today now st it).db := by
  by_cases hc : itemComplete it = true
  · obtain ⟨m, c, hm, hcin, hsw⟩ := hcov hc
    have hMn : getOrCreateMovie st.db (it.title.getD "") it.link =
        (m, st.db) := getOrCreateMovie_noop _ _ _ _ hm
    have hCn : getOrCreateCinema st.db (it.cinema.getD "")
        (it.location.getD "") (it.island.getD "") = (c, st.db) :=
      getOrCreateCinema_noop _ _ _ _ _ hcin
    obtain ⟨st1, hdb1, hops1, heq⟩ := processItem_shape today now st it hc
    rw [hMn] at hdb1 heq
    simp only at hdb1 heq
    rw [hCn] at hdb1 heq
    simp only at hdb1 heq
    rw [heq]
    have := foldl_processEntry_strip today now m.id c.id
      (it.version.getD "VOSE") it.showtimes st1
      (by rw [hdb1]; exact hsw)
    rw [hdb1] at this
    exact this
  · rw [Bool.not_eq_true] at hc
    simp only [processItem, hc, Bool.false_eq_true, if_false]
    exact stripOnly_refl _

theorem run_covers (today now : Nat) (items : List Item) (st : PState) :
    ∀ it ∈ items,
      coversItem today ((items.foldl (processItem today now) st).db) it := by
  induction items generalizing st with
  | nil => simp
  | cons a rest ih =>
      intro it hit
      rcases List.mem_cons.mp hit with rfl | hmem
      · rw [List.foldl_cons]
        exact covers_evolves today _ _ it (covers_establish today now st it)
          (evolves_foldl_processItem today now rest _)
      · rw [List.foldl_cons]
        exact ih _ it hmem

theorem run_covered_strip (today now : Nat) (items : List Item) (st : PState)
    (hcov : ∀ it ∈ items, coversItem today st.db it) :
    stripOnly st.db ((items.foldl (processItem today now) st).db) := by
  induction items generalizing st with
  | nil => exact stripOnly_refl _
  | cons a rest ih =>
      rw [List.foldl_cons]
      have h1 : stripOnly st.db (processItem today now st a).db :=
        processItem_strip today now st a (hcov a (by simp))
      refine stripOnly_trans h1 (ih _ ?_)
      intro it hit
      exact covers_stripOnly today _ _ it (hcov it (by simp [hit])) h1

/-- C1: running `process_scraped_data` twice in succession on the same batch
(same ingestion date, possibly different wall-clock `now`) leaves the
showtimes table with an identical row set: identical rows up to the
`scraped_at` timestamp, hence identical row count and identical
(movie_id, cinema_id, showtime_date, showtime_time) key sequence. -/
theorem process_twice_idempotent (today now1 now2 : Nat) (db : DB)
    (items : List Item) :
    ((processScrapedData today now2
        (processScrapedData today now1 db items).db items).db.showtimes.map
          stripTs =
      (processScrapedData today now1 db items).db.showtimes.map stripTs) ∧
    (processScrapedData today now2
        (processScrapedData today now1 db items).db items).db.showtimes.length =
      (processScrapedData today now1 db items).db.showtimes.length ∧
    (processScrapedData today now2
        (processScrapedData today now1 db items).db items).db.showtimes.map
          (fun s => (s.movie_id, s.cinema_id, s.showtime_date,
            s.showtime_time)) =
      (processScrapedData today now1 db items).db.showtimes.map
        (fun s => (s.movie_id, s.cinema_id, s.showtime_date,
          s.showtime_time)) := by
  have hcov := run_covers today now1 items (initPState db)
  have hstrip := run_covered_strip today now2 items
    (initPState (processScrapedData today now1 db items).db) hcov
  have hmap : (processScrapedData today now2
      (processScrapedData today now1 db items).db items).db.showtimes.map
        stripTs =
      (processScrapedData today now1 db items).db.showtimes.map stripTs :=
    hstrip.2.2
  refine ⟨hmap, ?_, ?_⟩
  · have := congrArg List.length hmap
    simpa using this
  · have h2 := congrArg
      (List.map (fun s => (s.movie_id, s.cinema_id, s.showtime_date,
        s.showtime_time))) hmap
    simpa [List.map_map, Function.comp] using h2

/-- C6: the engine accepts a bare time-string showtime (legacy shape) and
stores it as an active row dated `today` (the ingestion date), while a
`(date, time)` dict entry in the same record is stored under its supplied
date. -/
theorem legacy_defaults_to_today (today now : Nat) (db : DB)
    (title cin loc isl ts ds : String) (t d : Nat)
    (ht : parseTimeHM ts = some t) (hd : parseDate ds = some d)
    (h1 : title ≠ "") (h2 : cin ≠ "") (h3 : loc ≠ "") (h4 : isl ≠ "") :
    (∃ s ∈ (processScrapedData today now db
        [{ title := some title, cinema := some cin, location := some loc,
           island := some isl, version := none,
           showtimes := [ShowtimeItem.str ts,
             ShowtimeItem.dict (some ds) (some ts)],
           link := none }]).db.showtimes,
      s.showtime_date = today ∧ s.showtime_time = t ∧ s.is_active = true) ∧
    (∃ s ∈ (processScrapedData today now db
        [{ title := some title, cinema := some cin, location := some loc,
           island := some isl, version := none,
           showtimes := [ShowtimeItem.str ts,
             ShowtimeItem.dict (some ds) (some ts)],
           link := none }]).db.showtimes,
      s.showtime_date = d ∧ s.showtime_time = t ∧ s.is_active = true) := by
  have hts : ds ≠ "" := by
    intro hne
    rw [hne] at hd
    simp [parseDate, splitOnChar, digitsToNat?] at hd
  have hc : itemComplete
      { title := some title, cinema := some cin, location := some loc,
        island := some isl, version := none,
        showtimes := [ShowtimeItem.str ts,
          ShowtimeItem.dict (some ds) (some ts)],
        link := none } = true := by
    simp [itemComplete, otruthy, h1, h2, h3, h4]
  have hp1 : parseEntry today (ShowtimeItem.str ts) = EntryResult.ok today t := by
    simp [parseEntry, ht]
  have hp2 : parseEntry today (ShowtimeItem.dict (some ds) (some ts)) =
      EntryResult.ok d t := by
    simp [parseEntry, otruthy, hts, hd, ht]
    intro hne
    rw [hne] at ht
    simp [parseTimeHM, splitOnChar, pyIntNat?, digitsToNat?] at ht
  obtain ⟨st1, hdb1, hops1, heq⟩ := processItem_shape today now (initPState db) _ hc
  have hfin := covers_establish today now (initPState db)
    { title := some title, cinema := some cin, location := some loc,
      island := some isl, version := none,
      showtimes := [ShowtimeItem.str ts,
        ShowtimeItem.dict (some ds) (some ts)],
      link := none }
  obtain ⟨m, c, hm, hcin, hsw⟩ := hfin hc
  have hrun : (processScrapedData today now db
      [{ title := some title, cinema := some cin, location := some loc,
         island := some isl, version := none,
         showtimes := [ShowtimeItem.str ts,
           ShowtimeItem.dict (some ds) (some ts)],
         link := none }]) = processItem today now (initPState db)
      { title := some title, cinema := some cin, location := some loc,
        island := some isl, version := none,
        showtimes := [ShowtimeItem.str ts,
          ShowtimeItem.dict (some ds) (some ts)],
        link := none } := rfl
  rw [hrun]
  constructor
  · obtain ⟨s, hs, hact⟩ := hsw (ShowtimeItem.str ts) (by simp) today t hp1
    obtain ⟨_, _, hdate, htime⟩ := keyMatch_eq_key _ _ _ _ s
      (List.find?_some hs)
    exact ⟨s, List.mem_of_find?_eq_some hs, hdate, htime, hact⟩
  · obtain ⟨s, hs, hact⟩ := hsw (ShowtimeItem.dict (some ds) (some ts))
      (by simp) d t hp2
    obtain ⟨_, _, hdate, htime⟩ := keyMatch_eq_key _ _ _ _ s
      (List.find?_some hs)
    exact ⟨s, List.mem_of_find?_eq_some hs, hdate, htime, hact⟩

theorem reprocessEntry_firstActive_self
    (conflict : Nat → Nat → Nat → Nat → Bool) (today now mid cid : Nat)
    (v : String) (st : PState) (e : ShowtimeItem) (d t : Nat)
    (hp : parseEntry today e = EntryResult.ok d t)
    (hconf : conflict mid cid d t = false) :
    firstActive (reprocessEntry conflict today now mid cid v st e).db.showtimes
      mid cid d t := by
  cases hf : st.db.showtimes.find? (keyMatch mid cid d t) with
  | none =>
      refine ⟨{ movie_id := mid, cinema_id := cid, showtime_date := d,
                showtime_time := t, version := v, scraped_at := now,
                is_active := true }, ?_, rfl⟩
      simp only [reprocessEntry, hp, hf, hconf, Bool.false_eq_true, if_false]
      exact find?_append_of_none _ _ _ hf (by simp [keyMatch])
  | some s =>
      refine ⟨{ s with scraped_at := now, is_active := true }, ?_, rfl⟩
      simp only [reprocessEntry, hp, hf]
      exact find?_updateFirst_self _ _ _ s hf
        (by rw [keyMatch_hb]; exact List.find?_some hf)

theorem reprocessEntry_firstActive_mono
    (conflict : Nat → Nat → Nat → Nat → Bool) (today now mid cid : Nat)
    (v : String) (st : PState) (e : ShowtimeItem) (mid' cid' d' t' : Nat)
    (h : firstActive st.db.showtimes mid' cid' d' t') :
    firstActive (reprocessEntry conflict today now mid cid v st e).db.showtimes
      mid' cid' d' t' := by
  obtain ⟨s, hs, ha⟩ := h
  cases hp : parseEntry today e with
  | skip => exact ⟨s, by simp [reprocessEntry, hp, hs], ha⟩
  | err => exact ⟨s, by simp [reprocessEntry, hp, hs], ha⟩
  | ok d t =>
      cases hf : st.db.showtimes.find? (keyMatch mid cid d t) with
      | none =>
          cases hcf : conflict mid cid d t with
          | true =>
              refine ⟨s, ?_, ha⟩
              simp only [reprocessEntry, hp, hf, hcf, if_true]
              exact hs
          | false =>
              refine ⟨s, ?_, ha⟩
              simp only [reprocessEntry, hp, hf, hcf, Bool.false_eq_true,
                if_false]
              exact find?_append_of_some _ _ _ _ hs
      | some s0 =>
          by_cases hk : mid' = mid ∧ cid' = cid ∧ d' = d ∧ t' = t
          · obtain ⟨rfl, rfl, rfl, rfl⟩ := hk
            refine ⟨{ s0 with scraped_at := now, is_active := true }, ?_, rfl⟩
            simp only [reprocessEntry, hp, hf]
            exact find?_updateFirst_self _ _ _ s0 hf
              (by rw [keyMatch_hb]; exact List.find?_some hf)
          · refine ⟨s, ?_, ha⟩
            simp only [reprocessEntry, hp, hf]
            exact find?_updateFirst_other _ _ _ _ _ hs
              (fun y => keyMatch_hb _ _ _ _ _ y)
              (fun y hy => keyMatch_disjoint mid' cid' d' t' mid cid d t hk y hy)

theorem foldl_reprocessEntry_firstActive_mono
    (conflict : Nat → Nat → Nat → Nat → Bool) (today now mid cid : Nat)
    (v : String) (entries : List ShowtimeItem) (st : PState)
    (mid' cid' d' t' : Nat) (h : firstActive st.db.showtimes mid' cid' d' t') :
    firstActive
      ((entries.foldl (reprocessEntry conflict today now mid cid v)
        st).db.showtimes) mid' cid' d' t' := by
  induction entries generalizing st with
  | nil => exact h
  | cons a rest ih =>
      rw [List.foldl_cons]
      exact ih _ (reprocessEntry_firstActive_mono conflict today now mid cid
        v st a mid' cid' d' t' h)

theorem foldl_reprocessEntry_establish
    (conflict : Nat → Nat → Nat → Nat → Bool) (today now mid cid : Nat)
    (v : String) (entries : List ShowtimeItem) (st : PState) :
    ∀ e ∈ entries, ∀ d t, parseEntry today e = EntryResult.ok d t →
      conflict mid cid d t = false →
      firstActive
        ((entries.foldl (reprocessEntry conflict today now mid cid v)
          st).db.showtimes) mid cid d t := by
  induction entries generalizing st with
  | nil => simp
  | cons a rest ih =>
      intro e he d t hp hconf
      rcases List.mem_cons.mp he with rfl | hmem
      · rw [List.foldl_cons]
        exact foldl_reprocessEntry_firstActive_mono conflict today now mid cid
          v rest _ mid cid d t
          (reprocessEntry_firstActive_self conflict today now mid cid v st e
            d t hp hconf)
      · rw [List.foldl_cons]
        exact ih _ e hmem d t hp hconf

theorem reprocessItem_shape (conflict : Nat → Nat → Nat → Nat → Bool)
    (today now : Nat) (st : PState) (it : Item)
    (hc : itemComplete it = true) :
    ∃ st1 : PState,
      st1.db = (getOrCreateCinema
          (getOrCreateMovie st.db (it.title.getD "") it.link).2
          (it.cinema.getD "") (it.location.getD "") (it.island.getD "")).2 ∧
      st1.stats.showtimes_added = st.stats.showtimes_added ∧
      st1.ops = st.ops ∧
      reprocessItem conflict today now st it =
        it.showtimes.foldl
          (reprocessEntry conflict today now
            (getOrCreateMovie st.db (it.title.getD "") it.link).1.id
            (getOrCreateCinema
              (getOrCreateMovie st.db (it.title.getD "") it.link).2
              (it.cinema.getD "") (it.location.getD "") (it.island.getD "")).1.id
            (it.version.getD "VOSE")) st1 := by
  rcases hM : getOrCreateMovie st.db (it.title.getD "") it.link with ⟨movie, db1⟩
  rcases hC : getOrCreateCinema db1 (it.cinema.getD "") (it.location.getD "")
    (it.island.getD "") with ⟨cinema, db2⟩
  simp only [reprocessItem, hc, if_true, hM, hC]
  refine ⟨_, ?_, ?_, ?_, rfl⟩ <;> rfl

/-- C4: when the batch-level commit raises a uniqueness violation, the run
rolls the session back to the pre-batch state and replays the same logical
operations (identity resolution plus per-showtime upsert) row by row with
individual commits; a conflicting row is skipped without aborting the rest,
so every parseable entry whose own insert does not conflict ends up with an
active stored row - partial success instead of total failure. -/
theorem conflict_recovery_replay (conflict : Nat → Nat → Nat → Nat → Bool)
    (today now : Nat) (db : DB) (it : Item)
    (hc : itemComplete it = true) :
    processScrapedDataC true conflict today now db [it] =
      reprocessWithIndividualCommits conflict today now db [it] ∧
    (∀ e ∈ it.showtimes, ∀ d t, parseEntry today e = EntryResult.ok d t →
      conflict (getOrCreateMovie db (it.title.getD "") it.link).1.id
        (getOrCreateCinema (getOrCreateMovie db (it.title.getD "") it.link).2
          (it.cinema.getD "") (it.location.getD "") (it.island.getD "")).1.id
        d t = false →
      firstActive
        (processScrapedDataC true conflict today now db [it]).db.showtimes
        (getOrCreateMovie db (it.title.getD "") it.link).1.id
        (getOrCreateCinema (getOrCreateMovie db (it.title.getD "") it.link).2
          (it.cinema.getD "") (it.location.getD "") (it.island.getD "")).1.id
        d t) := by
  refine ⟨rfl, ?_⟩
  intro e he d t hp hconf
  have hrr : processScrapedDataC true conflict today now db [it] =
      reprocessItem conflict today now (initPState db) it := rfl
  rw [hrr]
  obtain ⟨st1, hdb1, hadd1, hops1, heq⟩ :=
    reprocessItem_shape conflict today now (initPState db) it hc
  rw [heq]
  exact foldl_reprocessEntry_establish conflict today now _ _ _ it.showtimes
    st1 e he d t hp hconf

/-- Conflict oracle for the C4 witness: inserts dated 2025-11-20 conflict. -/
def wConflict : Nat → Nat → Nat → Nat → Bool := fun _ _ d _ => d == 20251120

/-- Item for the C4 and C7 witnesses. -/
def wItemC4 : Item :=
  { title := some "Dune", cinema := some "Ocimax", location := some "Palma",
    island := some "Mallorca", version := none,
    showtimes := [ShowtimeItem.dict (some "2025-11-20") (some "18:00"),
                  ShowtimeItem.dict (some "2025-11-21") (some "18:00")],
    link := none }

/-- An empty session, for witness instantiations. -/
def wDB0 : DB :=
  { movies := [], cinemas := [], showtimes := [], nextMovieId := 1,
    nextCinemaId := 1 }

/-- C4 witness: with the first row's insert conflicting, the second row is
still written and active after the replay. -/
theorem conflict_recovery_replay_witness :
    firstActive (processScrapedDataC true wConflict 20251107 0 wDB0
        [wItemC4]).db.showtimes 1 1 20251121 1080 :=
  (conflict_recovery_replay wConflict 20251107 0 wDB0 wItemC4
      (by decide)).2
    (ShowtimeItem.dict (some "2025-11-21") (some "18:00")) (by decide)
    20251121 1080 (by decide) (by decide)

/-- A record listing the same (date, time) slot twice, for C7. -/
def dupSlotItem : Item :=
  { title := some "Dune", cinema := some "Ocimax", location := some "Palma",
    island := some "Mallorca", version := none,
    showtimes := [ShowtimeItem.dict (some "2025-11-07") (some "18:00"),
                  ShowtimeItem.dict (some "2025-11-07") (some "18:00")],
    link := none }

/-- C6 witness: the bare string "19:30" is stored dated 2025-11-07 (the
ingestion date), the dict entry under its supplied date 2025-11-20. -/
theorem legacy_defaults_to_today_witness :
    (∃ s ∈ (processScrapedData 20251107 0 wDB0
        [{ title := some "Dune", cinema := some "Ocimax",
           location := some "Palma", island := some "Mallorca",
           version := none,
           showtimes := [ShowtimeItem.str "19:30",
             ShowtimeItem.dict (some "2025-11-20") (some "19:30")],
           link := none }]).db.showtimes,
      s.showtime_date = 20251107 ∧ s.showtime_time = 1170 ∧
        s.is_active = true) ∧
    (∃ s ∈ (processScrapedData 20251107 0 wDB0
        [{ title := some "Dune", cinema := some "Ocimax",
           location := some "Palma", island := some "Mallorca",
           version := none,
           showtimes := [ShowtimeItem.str "19:30",
             ShowtimeItem.dict (some "2025-11-20") (some "19:30")],
           link := none }]).db.showtimes,
      s.showtime_date = 20251120 ∧ s.showtime_time = 1170 ∧
        s.is_active = true) :=
  legacy_defaults_to_today 20251107 0 wDB0 "Dune" "Ocimax" "Palma" "Mallorca"
    "19:30" "2025-11-20" 1170 20251120 (by decide) (by decide) (by decide)
    (by decide) (by decide) (by decide)

/-- A schema-valid raw record, for the C9 witness. -/
def wRawGood : RawRecord :=
  { title := some "Dune", link := none,
    showtimes := some [ShowtimeItem.dict (some "2025-11-20") (some "19:30")],
    cinema := some "Ocimax", location := some "Palma",
    island := some "Mallorca", version := none,
    scraped_at := some "2025-11-18" }

/-- A schema-invalid raw record (everything missing), for the C9 witness. -/
def wRawBad : RawRecord :=
  { title := none, link := none, showtimes := none, cinema := none,
    location := none, island := none, version := none, scraped_at := none }

/-- C9 witness: instantiation of the summary invariants on a two-record
batch. -/
theorem validateMovies_invariants_witness :
    (validateMovies [wRawGood, wRawBad]).2.total_items =
      (validateMovies [wRawGood, wRawBad]).2.valid_items +
        (validateMovies [wRawGood, wRawBad]).2.invalid_items ∧
    ((validateMovies [wRawGood, wRawBad]).2.valid = true ↔
      (validateMovies [wRawGood, wRawBad]).2.invalid_items = 0) ∧
    (validateMovies [wRawGood, wRawBad]).1 =
      [wRawGood, wRawBad].filterMap validateRecord :=
  validateMovies_invariants [wRawGood, wRawBad]

theorem countP_updateFirst {α : Type} (p q : α → Bool) (f : α → α)
    (hf : ∀ x, p (f x) = p x) (l : List α) :
    (updateFirst q f l).countP p = l.countP p := by
  induction l with
  | nil => rfl
  | cons a l ih =>
      cases hq : q a with
      | true => simp [updateFirst, hq, List.countP_cons, hf a]
      | false => simp [updateFirst, hq, List.countP_cons, ih]

theorem countP_eq_zero_of_find?_eq_none {α : Type} (p : α → Bool)
    (l : List α) (h : l.find? p = none) : l.countP p = 0 := by
  rw [List.countP_eq_zero]
  intro s hs
  exact List.find?_eq_none.mp h s hs

theorem getOrCreateMovieF_fresh (db : DB) (T : String)
    (link : Option String) :
    getOrCreateMovieF { dbc := db, pending := [], poisoned := false } T link =
      ((getOrCreateMovie db T link).1,
       { dbc := (getOrCreateMovie db T link).2, pending := [],
         poisoned := false }) := by
  cases h : db.movies.find? (fun m => m.title == T) with
  | none =>
      simp only [getOrCreateMovieF, getOrCreateMovie, h]
      simp [flushF, clashes, hasDupKeys]
  | some m =>
      by_cases hb : (otruthy link && !otruthy m.link) = true
      · simp only [getOrCreateMovieF, getOrCreateMovie, h, hb, if_true]
        simp [flushF, clashes, hasDupKeys]
      · rw [Bool.not_eq_true] at hb
        simp [getOrCreateMovieF, getOrCreateMovie, h, hb]

theorem getOrCreateCinemaF_fresh (db : DB) (n l i : String) :
    getOrCreateCinemaF { dbc := db, pending := [], poisoned := false } n l i =
      ((getOrCreateCinema db n l i).1,
       { dbc := (getOrCreateCinema db n l i).2, pending := [],
         poisoned := false }) := by
  cases h : db.cinemas.find? (fun c => c.name == n && c.location == l) with
  | none =>
      simp only [getOrCreateCinemaF, getOrCreateCinema, h]
      simp [flushF, clashes, hasDupKeys]
  | some c => simp [getOrCreateCinemaF, getOrCreateCinema, h]

/-- C7 counterexample, on the flush-aware model: a single source record
listing the slot (2025-11-07, 18:00) twice is NOT deduplicated in memory -
the second occurrence queries storage again, cannot see the first
occurrence's pending INSERT (the session does not autoflush and
`add_showtime` never flushes), and attempts a second INSERT for the same
key, so the batch phase alone makes two INSERT attempts; the commit then
fails on `uq_showtime` and the replay adds one more INSERT and one
heartbeat UPDATE, for four write attempts in all - not one.  Exactly one
row survives and the returned stats count it once. -/
theorem dup_slot_counterexample :
    ¬((processScrapedDataF 20251107 0 wDB0 [dupSlotItem]).ops.countP
        (StorageOp.isWrite 1 1 20251107 1080) ≤ 1) ∧
    (processScrapedDataF 20251107 0 wDB0 [dupSlotItem]).ops.countP
        (StorageOp.isWrite 1 1 20251107 1080) = 4 ∧
    (([dupSlotItem].foldl (processItemF 20251107 0)
        (initPStateF wDB0)).ops.countP
        (StorageOp.isInsert 1 1 20251107 1080) = 2) ∧
    (processScrapedDataF 20251107 0 wDB0 [dupSlotItem]).db.showtimes.length
      = 1 ∧
    (processScrapedDataF 20251107 0 wDB0 [dupSlotItem]).stats.showtimes_added
      = 1 :=
  ⟨by decide, by decide, by decide, by decide, by decide⟩

/-- The row that each occurrence of the duplicated slot of
`dup_slot_constraint_recovery` passes to `db.add`. -/
def dupRow (db : DB) (title cin loc isl : String) (d t now : Nat) :
    Showtime :=
  { movie_id := (getOrCreateMovie db title none).1.id,
     cinema_id := (getOrCreateCinema (getOrCreateMovie db title none).2 cin loc isl).1.id,
     showtime_date := d, showtime_time := t, version := "VOSE",
     scraped_at := now, is_active := true }

/-- C7 amended: no deduplication happens before storage.  Over the real
non-autoflushing session the second occurrence of a slot cannot see the
first occurrence's pending INSERT, so a record listing the same
(date, time) slot twice attempts TWO INSERTs for one composite key in the
batch phase; the batch commit then fails on the `uq_showtime` constraint
and the run degrades to the row-by-row conflict-recovery replay, whose
outcome the run returns: exactly one active stored row for the slot,
counted once in `showtimes_added`. -/
theorem dup_slot_constraint_recovery (today now : Nat) (db : DB)
    (title cin loc isl ds ts : String) (d t mid cid : Nat)
    (hd : parseDate ds = some d) (ht : parseTimeHM ts = some t)
    (h1 : title ≠ "") (h2 : cin ≠ "") (h3 : loc ≠ "") (h4 : isl ≠ "")
    (hm : (getOrCreateMovie db title none).1.id = mid)
    (hcid : (getOrCreateCinema (getOrCreateMovie db title none).2 cin loc
      isl).1.id = cid)
    (hnone : db.showtimes.find? (keyMatch mid cid d t) = none) :
    (([{ title := some title, cinema := some cin, location := some loc,
         island := some isl, version := none,
         showtimes := [ShowtimeItem.dict (some ds) (some ts),
           ShowtimeItem.dict (some ds) (some ts)],
         link := none }] : List Item).foldl
        (processItemF today now) (initPStateF db)).ops.countP (StorageOp.isInsert mid cid d t) = 2 ∧
    (processScrapedDataF today now db
        [{ title := some title, cinema := some cin, location := some loc,
           island := some isl, version := none,
           showtimes := [ShowtimeItem.dict (some ds) (some ts),
             ShowtimeItem.dict (some ds) (some ts)],
           link := none }]).stats =
      (reprocessWithIndividualCommits (fun _ _ _ _ => false) today now db
          [{ title := some title, cinema := some cin, location := some loc,
             island := some isl, version := none,
             showtimes := [ShowtimeItem.dict (some ds) (some ts),
               ShowtimeItem.dict (some ds) (some ts)],
             link := none }]).stats ∧
    (processScrapedDataF today now db
        [{ title := some title, cinema := some cin, location := some loc,
           island := some isl, version := none,
           showtimes := [ShowtimeItem.dict (some ds) (some ts),
             ShowtimeItem.dict (some ds) (some ts)],
           link := none }]).db =
      (reprocessWithIndividualCommits (fun _ _ _ _ => false) today now db
          [{ title := some title, cinema := some cin, location := some loc,
             island := some isl, version := none,
             showtimes := [ShowtimeItem.dict (some ds) (some ts),
               ShowtimeItem.dict (some ds) (some ts)],
             link := none }]).db ∧
    (processScrapedDataF today now db
        [{ title := some title, cinema := some cin, location := some loc,
           island := some isl, version := none,
           showtimes := [ShowtimeItem.dict (some ds) (some ts),
             ShowtimeItem.dict (some ds) (some ts)],
           link := none }]).db.showtimes.countP (keyMatch mid cid d t) = 1 ∧
    firstActive (processScrapedDataF today now db
                    [{ title := some title, cinema := some cin, location := some loc,
                       island := some isl, version := none,
                       showtimes := [ShowtimeItem.dict (some ds) (some ts),
                         ShowtimeItem.dict (some ds) (some ts)],
                       link := none }]).db.showtimes mid cid d t ∧
    (processScrapedDataF today now db
        [{ title := some title, cinema := some cin, location := some loc,
           island := some isl, version := none,
           showtimes := [ShowtimeItem.dict (some ds) (some ts),
             ShowtimeItem.dict (some ds) (some ts)],
           link := none }]).stats.showtimes_added = 1 := by
  subst hm
  subst hcid
  have hts : ds ≠ "" := by
    intro hne
    rw [hne] at hd
    simp [parseDate, splitOnChar, digitsToNat?] at hd
  have hp : parseEntry today (ShowtimeItem.dict (some ds) (some ts)) =
      EntryResult.ok d t := by
    simp [parseEntry, otruthy, hts, hd, ht]
    intro hne
    rw [hne] at ht
    simp [parseTimeHM, splitOnChar, pyIntNat?, digitsToNat?] at ht
  have hcomp : itemComplete
      ({ title := some title, cinema := some cin, location := some loc,
         island := some isl, version := none,
         showtimes := [ShowtimeItem.dict (some ds) (some ts),
           ShowtimeItem.dict (some ds) (some ts)],
         link := none } : Item) = true := by
    simp [itemComplete, otruthy, h1, h2, h3, h4]
  have hfind0 : (getOrCreateCinema (getOrCreateMovie db title none).2 cin loc isl).2.showtimes.find?
      (keyMatch (getOrCreateMovie db title none).1.id
        (getOrCreateCinema (getOrCreateMovie db title none).2 cin loc isl).1.id d t) = none := by
    rw [getOrCreateCinema_showtimes, getOrCreateMovie_showtimes]
    exact hnone
  have hA1 : addShowtimeF now
      { dbc := (getOrCreateCinema (getOrCreateMovie db title none).2 cin loc isl).2, pending := [], poisoned := false }
      (getOrCreateMovie db title none).1.id
      (getOrCreateCinema (getOrCreateMovie db title none).2 cin loc isl).1.id d t "VOSE" =
      (dupRow db title cin loc isl d t now,
       { dbc := (getOrCreateCinema (getOrCreateMovie db title none).2 cin loc isl).2, pending := [dupRow db title cin loc isl d t now], poisoned := false },
       [StorageOp.query (getOrCreateMovie db title none).1.id
          (getOrCreateCinema (getOrCreateMovie db title none).2 cin loc isl).1.id d t,
        StorageOp.insert (getOrCreateMovie db title none).1.id
          (getOrCreateCinema (getOrCreateMovie db title none).2 cin loc isl).1.id d t]) := by
    simp [addShowtimeF, hfind0, dupRow]
  have hA2 : addShowtimeF now
      { dbc := (getOrCreateCinema (getOrCreateMovie db title none).2 cin loc isl).2, pending := [dupRow db title cin loc isl d t now], poisoned := false }
      (getOrCreateMovie db title none).1.id
      (getOrCreateCinema (getOrCreateMovie db title none).2 cin loc isl).1.id d t "VOSE" =
      (dupRow db title cin loc isl d t now,
       { dbc := (getOrCreateCinema (getOrCreateMovie db title none).2 cin loc isl).2, pending := [dupRow db title cin loc isl d t now, dupRow db title cin loc isl d t now], poisoned := false },
       [StorageOp.query (getOrCreateMovie db title none).1.id
          (getOrCreateCinema (getOrCreateMovie db title none).2 cin loc isl).1.id d t,
        StorageOp.insert (getOrCreateMovie db title none).1.id
          (getOrCreateCinema (getOrCreateMovie db title none).2 cin loc isl).1.id d t]) := by
    simp [addShowtimeF, hfind0, dupRow]
  have hbatch : (([{ title := some title, cinema := some cin, location := some loc,
                     island := some isl, version := none,
                     showtimes := [ShowtimeItem.dict (some ds) (some ts),
                       ShowtimeItem.dict (some ds) (some ts)],
                     link := none }] : List Item).foldl
                    (processItemF today now) (initPStateF db)) =
      { ss := { dbc := (getOrCreateCinema (getOrCreateMovie db title none).2 cin loc isl).2, pending := [dupRow db title cin loc isl d t now, dupRow db title cin loc isl d t now], poisoned := false },
         stats := { movies_processed := 1, cinemas_processed := 1, showtimes_added := 2, errors := [] },
         movies_seen := [(getOrCreateMovie db title none).1.id],
         cinemas_seen := [(getOrCreateCinema (getOrCreateMovie db title none).2 cin loc isl).1.id],
         ops := [StorageOp.query (getOrCreateMovie db title none).1.id
                   (getOrCreateCinema (getOrCreateMovie db title none).2 cin loc isl).1.id d t,
           StorageOp.insert (getOrCreateMovie db title none).1.id
             (getOrCreateCinema (getOrCreateMovie db title none).2 cin loc isl).1.id d t,
           StorageOp.query (getOrCreateMovie db title none).1.id
             (getOrCreateCinema (getOrCreateMovie db title none).2 cin loc isl).1.id d t,
           StorageOp.insert (getOrCreateMovie db title none).1.id
             (getOrCreateCinema (getOrCreateMovie db title none).2 cin loc isl).1.id d t] } := by
    simp [processItemF, hcomp, initPStateF, initStats,
      getOrCreateMovieF_fresh, getOrCreateCinemaF_fresh, processEntryF,
      hp, hA1, hA2]
  have hcl : clashes (getOrCreateCinema (getOrCreateMovie db title none).2 cin loc isl).2
      [dupRow db title cin loc isl d t now, dupRow db title cin loc isl d t now] = true := by
    simp [clashes, hasDupKeys, hasKey]
  have hstats : (processScrapedDataF today now db
                    [{ title := some title, cinema := some cin, location := some loc,
                       island := some isl, version := none,
                       showtimes := [ShowtimeItem.dict (some ds) (some ts),
                         ShowtimeItem.dict (some ds) (some ts)],
                       link := none }]).stats =
      (reprocessWithIndividualCommits (fun _ _ _ _ => false) today now db
          [{ title := some title, cinema := some cin, location := some loc,
             island := some isl, version := none,
             showtimes := [ShowtimeItem.dict (some ds) (some ts),
               ShowtimeItem.dict (some ds) (some ts)],
             link := none }]).stats := by
    simp [processScrapedDataF, hbatch, hcl]
  have hdbeq : (processScrapedDataF today now db
                    [{ title := some title, cinema := some cin, location := some loc,
                       island := some isl, version := none,
                       showtimes := [ShowtimeItem.dict (some ds) (some ts),
                         ShowtimeItem.dict (some ds) (some ts)],
                       link := none }]).db =
      (reprocessWithIndividualCommits (fun _ _ _ _ => false) today now db
          [{ title := some title, cinema := some cin, location := some loc,
             island := some isl, version := none,
             showtimes := [ShowtimeItem.dict (some ds) (some ts),
               ShowtimeItem.dict (some ds) (some ts)],
             link := none }]).db := by
    simp [processScrapedDataF, hbatch, hcl]
  have hrr : (reprocessWithIndividualCommits (fun _ _ _ _ => false) today now db
                 [{ title := some title, cinema := some cin, location := some loc,
                    island := some isl, version := none,
                    showtimes := [ShowtimeItem.dict (some ds) (some ts),
                      ShowtimeItem.dict (some ds) (some ts)],
                    link := none }]) =
      reprocessItem (fun _ _ _ _ => false) today now (initPState db)
        { title := some title, cinema := some cin, location := some loc,
          island := some isl, version := none,
          showtimes := [ShowtimeItem.dict (some ds) (some ts),
            ShowtimeItem.dict (some ds) (some ts)],
          link := none } := rfl
  obtain ⟨st1, hdb1, hadd1, hops1, heq⟩ :=
    reprocessItem_shape (fun _ _ _ _ => false) today now (initPState db)
      { title := some title, cinema := some cin, location := some loc,
        island := some isl, version := none,
        showtimes := [ShowtimeItem.dict (some ds) (some ts),
          ShowtimeItem.dict (some ds) (some ts)],
        link := none } hcomp
  have hdb1' : st1.db = (getOrCreateCinema (getOrCreateMovie db title none).2 cin loc isl).2 := hdb1
  have hadd1' : st1.stats.showtimes_added = 0 := hadd1.trans rfl
  have heq' : reprocessItem (fun _ _ _ _ => false) today now (initPState db)
      { title := some title, cinema := some cin, location := some loc,
        island := some isl, version := none,
        showtimes := [ShowtimeItem.dict (some ds) (some ts),
          ShowtimeItem.dict (some ds) (some ts)],
        link := none } =
      [ShowtimeItem.dict (some ds) (some ts),
       ShowtimeItem.dict (some ds) (some ts)].foldl
        (reprocessEntry (fun _ _ _ _ => false) today now
          (getOrCreateMovie db title none).1.id
          (getOrCreateCinema (getOrCreateMovie db title none).2 cin loc isl).1.id "VOSE") st1 := heq
  have hfind1 : st1.db.showtimes.find? (keyMatch (getOrCreateMovie db title none).1.id
                                          (getOrCreateCinema (getOrCreateMovie db title none).2 cin loc isl).1.id d t) = none := by
    rw [hdb1', getOrCreateCinema_showtimes, getOrCreateMovie_showtimes]
    exact hnone
  have hrowkey : keyMatch (getOrCreateMovie db title none).1.id
      (getOrCreateCinema (getOrCreateMovie db title none).2 cin loc isl).1.id d t
      (dupRow db title cin loc isl d t now) = true := by
    simp [keyMatch, dupRow]
  have hfind2 : (st1.db.showtimes ++ [dupRow db title cin loc isl d t now]).find? (keyMatch (getOrCreateMovie db title none).1.id
                                                    (getOrCreateCinema (getOrCreateMovie db title none).2 cin loc isl).1.id d t) =
      some (dupRow db title cin loc isl d t now) :=
    find?_append_of_none _ _ _ hfind1 hrowkey
  have hR1 : reprocessEntry (fun _ _ _ _ => false) today now
      (getOrCreateMovie db title none).1.id
      (getOrCreateCinema (getOrCreateMovie db title none).2 cin loc isl).1.id "VOSE" st1 (ShowtimeItem.dict (some ds) (some ts)) =
      { st1 with
         db := { st1.db with showtimes := st1.db.showtimes ++ [dupRow db title cin loc isl d t now] },
         stats := { st1.stats with showtimes_added := st1.stats.showtimes_added + 1 },
         ops := st1.ops ++
           [StorageOp.query (getOrCreateMovie db title none).1.id
              (getOrCreateCinema (getOrCreateMovie db title none).2 cin loc isl).1.id d t,
            StorageOp.insert (getOrCreateMovie db title none).1.id
              (getOrCreateCinema (getOrCreateMovie db title none).2 cin loc isl).1.id d t] } := by
    simp [reprocessEntry, hp, hfind1, dupRow]
  have hR2 : reprocessEntry (fun _ _ _ _ => false) today now
      (getOrCreateMovie db title none).1.id
      (getOrCreateCinema (getOrCreateMovie db title none).2 cin loc isl).1.id "VOSE"
      { st1 with
         db := { st1.db with showtimes := st1.db.showtimes ++ [dupRow db title cin loc isl d t now] },
         stats := { st1.stats with showtimes_added := st1.stats.showtimes_added + 1 },
         ops := st1.ops ++
           [StorageOp.query (getOrCreateMovie db title none).1.id
              (getOrCreateCinema (getOrCreateMovie db title none).2 cin loc isl).1.id d t,
            StorageOp.insert (getOrCreateMovie db title none).1.id
              (getOrCreateCinema (getOrCreateMovie db title none).2 cin loc isl).1.id d t] }
      (ShowtimeItem.dict (some ds) (some ts)) =
      { st1 with
         db :=
           { st1.db with
             showtimes :=
               updateFirst
                 (keyMatch (getOrCreateMovie db title none).1.id
                   (getOrCreateCinema (getOrCreateMovie db title none).2 cin loc isl).1.id d t)
                 (fun s => { s with scraped_at := now, is_active := true })
                 (st1.db.showtimes ++ [dupRow db title cin loc isl d t now]) },
         stats := { st1.stats with showtimes_added := st1.stats.showtimes_added + 1 },
         ops := st1.ops ++
           [StorageOp.query (getOrCreateMovie db title none).1.id
              (getOrCreateCinema (getOrCreateMovie db title none).2 cin loc isl).1.id d t,
            StorageOp.insert (getOrCreateMovie db title none).1.id
              (getOrCreateCinema (getOrCreateMovie db title none).2 cin loc isl).1.id d t,
            StorageOp.query (getOrCreateMovie db title none).1.id
              (getOrCreateCinema (getOrCreateMovie db title none).2 cin loc isl).1.id d t,
            StorageOp.update (getOrCreateMovie db title none).1.id
              (getOrCreateCinema (getOrCreateMovie db title none).2 cin loc isl).1.id d t] } := by
    simp [reprocessEntry, hp, hfind1, keyMatch, dupRow]
  have hfold : (reprocessWithIndividualCommits (fun _ _ _ _ => false) today now db
                   [{ title := some title, cinema := some cin, location := some loc,
                      island := some isl, version := none,
                      showtimes := [ShowtimeItem.dict (some ds) (some ts),
                        ShowtimeItem.dict (some ds) (some ts)],
                      link := none }]) =
      { st1 with
         db :=
           { st1.db with
             showtimes :=
               updateFirst
                 (keyMatch (getOrCreateMovie db title none).1.id
                   (getOrCreateCinema (getOrCreateMovie db title none).2 cin loc isl).1.id d t)
                 (fun s => { s with scraped_at := now, is_active := true })
                 (st1.db.showtimes ++ [dupRow db title cin loc isl d t now]) },
         stats := { st1.stats with showtimes_added := st1.stats.showtimes_added + 1 },
         ops := st1.ops ++
           [StorageOp.query (getOrCreateMovie db title none).1.id
              (getOrCreateCinema (getOrCreateMovie db title none).2 cin loc isl).1.id d t,
            StorageOp.insert (getOrCreateMovie db title none).1.id
              (getOrCreateCinema (getOrCreateMovie db title none).2 cin loc isl).1.id d t,
            StorageOp.query (getOrCreateMovie db title none).1.id
              (getOrCreateCinema (getOrCreateMovie db title none).2 cin loc isl).1.id d t,
            StorageOp.update (getOrCreateMovie db title none).1.id
              (getOrCreateCinema (getOrCreateMovie db title none).2 cin loc isl).1.id d t] } := by
    rw [hrr, heq']
    simp only [List.foldl_cons, List.foldl_nil]
    rw [hR1, hR2]
  refine ⟨?_, hstats, hdbeq, ?_, ?_, ?_⟩
  · rw [hbatch]
    simp [List.countP_cons, StorageOp.isInsert]
  · rw [hdbeq, hfold]
    show (updateFirst (keyMatch (getOrCreateMovie db title none).1.id
        (getOrCreateCinema (getOrCreateMovie db title none).2 cin loc isl).1.id d t)
      (fun s => { s with scraped_at := now, is_active := true })
      (st1.db.showtimes ++ [dupRow db title cin loc isl d t now])).countP
      (keyMatch (getOrCreateMovie db title none).1.id
        (getOrCreateCinema (getOrCreateMovie db title none).2 cin loc isl).1.id d t) = 1
    rw [countP_updateFirst _ _ _
      (fun x => keyMatch_hb (getOrCreateMovie db title none).1.id
        (getOrCreateCinema (getOrCreateMovie db title none).2 cin loc isl).1.id d t now x)]
    rw [List.countP_append, countP_eq_zero_of_find?_eq_none _ _ hfind1]
    simp [List.countP_cons, hrowkey]
  · rw [hdbeq, hfold]
    unfold firstActive
    exact ⟨_, find?_updateFirst_self _ _ _ _ hfind2
      ((keyMatch_hb (getOrCreateMovie db title none).1.id
        (getOrCreateCinema (getOrCreateMovie db title none).2 cin loc isl).1.id d t now
        (dupRow db title cin loc isl d t now)).trans hrowkey), rfl⟩
  · rw [hstats, hfold]
    show st1.stats.showtimes_added + 1 = 1
    rw [hadd1']

/-- C7 amended-claim witness: on an empty session, the record listing
(2025-11-07, 18:00) twice makes two batch INSERT attempts for the key
(1, 1, 20251107, 1080); the run returns the replay's state: one active row
for the slot, counted once. -/
theorem dup_slot_constraint_recovery_witness :
    ([dupSlotItem].foldl (processItemF 20251107 0)
        (initPStateF wDB0)).ops.countP
      (StorageOp.isInsert 1 1 20251107 1080) = 2 ∧
    (processScrapedDataF 20251107 0 wDB0 [dupSlotItem]).stats =
      (reprocessWithIndividualCommits (fun _ _ _ _ => false) 20251107 0 wDB0
        [dupSlotItem]).stats ∧
    (processScrapedDataF 20251107 0 wDB0 [dupSlotItem]).db =
      (reprocessWithIndividualCommits (fun _ _ _ _ => false) 20251107 0 wDB0
        [dupSlotItem]).db ∧
    (processScrapedDataF 20251107 0 wDB0
        [dupSlotItem]).db.showtimes.countP (keyMatch 1 1 20251107 1080) = 1 ∧
    firstActive (processScrapedDataF 20251107 0 wDB0
        [dupSlotItem]).db.showtimes 1 1 20251107 1080 ∧
    (processScrapedDataF 20251107 0 wDB0 [dupSlotItem]).stats.showtimes_added
      = 1 :=
  dup_slot_constraint_recovery 20251107 0 wDB0 "Dune" "Ocimax" "Palma"
    "Mallorca" "2025-11-07" "18:00" 20251107 1080 1 1 (by decide) (by decide)
    (by decide) (by decide) (by decide) (by decide) (by decide) (by decide)
    (by decide)
